import Mathlib

/-!
Shallow embedding of the graph backend (FastAPI service over a Cosmos DB
Gremlin store) for specification checking.  The definitions mirror the Python
source in `app/repositories/graph_repository.py` and
`app/services/graph_service.py`.  Remote behaviour is made explicit as
function arguments: the outcome of each remote call attempt, the node a
traversal would match, and the result of auto-discovery lookups.  Machine
strings are Lean `String`s; Python dictionaries are association lists with
first-binding lookup and replace-or-append assignment.
-/

/- ===== Python string primitives ===== -/

/-- Lowercase mapping, mirroring Python `str.lower` on the ASCII data the
service handles. -/
def pyLower (s : String) : String := String.mk (s.data.map Char.toLower)

/-- Uppercase mapping, mirroring Python `str.upper` on ASCII data. -/
def pyUpper (s : String) : String := String.mk (s.data.map Char.toUpper)

/-- Whitespace trimming at both ends, mirroring Python `str.strip()`. -/
def pyStrip (s : String) : String :=
  String.mk (((s.data.dropWhile Char.isWhitespace).reverse.dropWhile Char.isWhitespace).reverse)

/-- Suffix test, mirroring Python `str.endswith`. -/
def pyEndsWith (s suffix : String) : Bool :=
  suffix.data.reverse.isPrefixOf s.data.reverse

/-- Decide whether `p` occurs as a contiguous run inside `l`. -/
def hasSub (p : List Char) : List Char → Bool
  | [] => p.isEmpty
  | c :: t => p.isPrefixOf (c :: t) || hasSub p t

/-- Python substring test `needle in hay`. -/
def subIn (needle hay : String) : Bool := hasSub needle.toList hay.toList

/- ===== Python dict operations on association lists ===== -/

/-- Dictionary read `m.get(k)`: the first binding of `k`, if any. -/
def getA : List (String × String) → String → Option String
  | [], _ => none
  | (k2, v) :: rest, k => if k2 = k then some v else getA rest k

/-- Dictionary assignment `m[k] = v`: replace the binding or append it. -/
def setA : List (String × String) → String → String → List (String × String)
  | [], k, v => [(k, v)]
  | (k2, v2) :: rest, k, v => if k2 = k then (k, v) :: rest else (k2, v2) :: setA rest k v

/-- Dictionary deletion `del m[k]` (no effect when the key is absent). -/
def delA : List (String × String) → String → List (String × String)
  | [], _ => []
  | (k2, v2) :: rest, k => if k2 = k then rest else (k2, v2) :: delA rest k

/-- Dictionary key test `k in m`. -/
def hasA : List (String × String) → String → Bool
  | [], _ => false
  | (k2, _) :: rest, k => k2 == k || hasA rest k

/-- Truthiness of an optional string under Python rules: `None` and the
empty string are falsy. -/
def truthy : Option String → Bool
  | none => false
  | some s => s ≠ ""

/-- Read that participates in a Python `or` chain: a binding is usable only
when its value is truthy. -/
def getTruthy (m : List (String × String)) (k : String) : Option String :=
  match getA m k with
  | some v => if v = "" then none else some v
  | none => none

/- ===== GraphRepository: escaping and query composition ===== -/

/-- Mirror of `GraphRepository._escape`: replace each single quote by a
backslash-quote pair (`str(value).replace` replaces every occurrence). -/
def escape (v : String) : String :=
  String.mk (v.data.flatMap fun c => if c = '\x27' then ['\\', '\x27'] else [c])

/-- Mirror of `_escape` on an optional value: `None` collapses to `""`. -/
def escapeOpt : Option String → String
  | none => ""
  | some v => escape v

/-- Query composed by `GraphRepository.search_nodes`.  Note that the source
interpolates the keyword directly, without passing it through `_escape`. -/
def searchNodesQuery (keyword : String) (limit : Nat) : String :=
  "g.V().has(\x27label\x27, TextP.containing(\x27" ++ keyword ++ "\x27)).limit(" ++
    toString limit ++ ").valueMap(true)"

/-- Property-step suffix composed by the loop of `create_entity`: keys in
`skip_keys = ["id", "pk", "partitionKey", pk_key]` and `None` values are
skipped, every surviving value passes through `_escape`. -/
def createPropStr (pkKey : String) : List (String × Option String) → String
  | [] => ""
  | (k, v) :: rest =>
    if k = "id" ∨ k = "pk" ∨ k = "partitionKey" ∨ k = pkKey then createPropStr pkKey rest
    else
      match v with
      | none => createPropStr pkKey rest
      | some v2 =>
          ".property(\x27" ++ k ++ "\x27, \x27" ++ escape v2 ++ "\x27)" ++ createPropStr pkKey rest

/-- Read of a possibly-`None` dictionary value inside a Python `or` chain. -/
def getOptTruthy : List (String × Option String) → String → Option String
  | [], _ => none
  | (k2, v) :: rest, k =>
    if k2 = k then
      match v with
      | some v2 => if v2 = "" then none else some v2
      | none => none
    else getOptTruthy rest k

/-- Partition-key value chosen by `create_entity`:
`properties.get(pk_key) or properties.get("partitionKey") or entity_id`. -/
def createPkVal (pkKey entityId : String) (props : List (String × Option String)) : String :=
  match getOptTruthy props pkKey with
  | some v => v
  | none =>
    match getOptTruthy props "partitionKey" with
    | some v => v
    | none => entityId

/-- Upsert query composed by `GraphRepository.create_entity`: the partition
key is set only inside the `addV` branch of the coalesce, and the trailing
property steps come from `createPropStr`. -/
def createEntityQuery (pkKey entityId label : String) (props : List (String × Option String)) : String :=
  "g.V(\x27" ++ entityId ++ "\x27).fold().coalesce(unfold(), addV(\x27" ++ label ++
    "\x27).property(\x27id\x27, \x27" ++ entityId ++ "\x27).property(\x27" ++ pkKey ++
    "\x27, \x27" ++ createPkVal pkKey entityId props ++ "\x27))" ++ createPropStr pkKey props

/-- Property-step suffix composed by `update_entity` and
`update_relationship`: every pair is emitted, no key is skipped. -/
def updatePropStr : List (String × String) → String
  | [] => ""
  | (k, v) :: rest =>
      ".property(\x27" ++ k ++ "\x27, \x27" ++ escape v ++ "\x27)" ++ updatePropStr rest

/-- Fallback of the repository mutations: `partition_key if partition_key
else entity_id` (both `None` and `""` are falsy). -/
def repoPkVal (entityId : String) : Option String → String
  | some p => if p = "" then entityId else p
  | none => entityId

/-- Query composed by `GraphRepository.update_entity`. -/
def updateEntityQuery (pkKey entityId : String) (props : List (String × String))
    (partitionKey : Option String) : String :=
  "g.V(\x27" ++ entityId ++ "\x27).has(\x27" ++ pkKey ++ "\x27, \x27" ++
    repoPkVal entityId partitionKey ++ "\x27)" ++ updatePropStr props

/-- Query composed by `GraphRepository.delete_entity`. -/
def deleteEntityQuery (pkKey entityId : String) (partitionKey : Option String) : String :=
  "g.V(\x27" ++ entityId ++ "\x27).has(\x27" ++ pkKey ++ "\x27, \x27" ++
    repoPkVal entityId partitionKey ++ "\x27).drop()"

/- ===== GraphRepository: store semantics of upsert and update ===== -/

/-- Stored graph node: vertex id, label, and property map.  The partition key
lives in the property map under the configured key name. -/
structure GNode where
  nid : String
  nlabel : String
  props : List (String × String)
deriving Repr, DecidableEq

/-- Gremlin `.property(k, v)` chain on a vertex: each step overwrites the
single-cardinality property. -/
def applySteps (n : GNode) : List (String × String) → GNode
  | [] => n
  | (k, v) :: rest => applySteps { n with props := setA n.props k v } rest

/-- Stored values written by the property loop of `create_entity` (the same
pairs whose steps `createPropStr` prints, unescaped as the store keeps them). -/
def createSteps (pkKey : String) : List (String × Option String) → List (String × String)
  | [] => []
  | (k, v) :: rest =>
    if k = "id" ∨ k = "pk" ∨ k = "partitionKey" ∨ k = pkKey then createSteps pkKey rest
    else
      match v with
      | none => createSteps pkKey rest
      | some v2 => (k, v2) :: createSteps pkKey rest

/-- Gremlin semantics of the upsert query of `create_entity`, applied to the
node currently stored under the target id (`none` when absent): the coalesce
keeps an existing vertex, otherwise adds one carrying the id and the computed
partition key; the trailing property steps then run in both cases. -/
def upsertEntityApply (pkKey : String) (existing : Option GNode) (entityId label : String)
    (props : List (String × Option String)) : GNode :=
  let base :=
    match existing with
    | some n => n
    | none =>
      { nid := entityId, nlabel := label,
        props := [("id", entityId), (pkKey, createPkVal pkKey entityId props)] }
  applySteps base (createSteps pkKey props)

/-- Stored partition key of a node. -/
def storedPk (pkKey : String) (n : GNode) : Option String := getA n.props pkKey

/-- Gremlin semantics of the update query of `update_entity` on the node
stored under the target id: the `has` filter keeps the node only when its
stored partition key equals the fallback value, and on a match every property
step runs (the update loop skips no key). -/
def updateEntityApply (pkKey : String) (existing : Option GNode) (entityId : String)
    (props : List (String × String)) (partitionKey : Option String) : Option GNode :=
  match existing with
  | none => none
  | some n =>
    if storedPk pkKey n = some (repoPkVal entityId partitionKey) then
      some (applySteps n props)
    else some n

/- ===== GraphRepository: retry loop of _execute_query ===== -/

/-- Outcome of a single remote Gremlin call attempt. -/
inductive Attempt where
  | succeeds (rows : List String)
  | fails (msg : String)
deriving Repr, DecidableEq

/-- Rate-limit classification of `_execute_query`: the error text contains
`"429"` or `"RequestRateTooLarge"`. -/
def isRateLimited (msg : String) : Bool :=
  subIn "429" msg || subIn "RequestRateTooLarge" msg

/-- Not-found classification of `_execute_query`: the error text contains
`"404"`. -/
def isNotFound (msg : String) : Bool := subIn "404" msg

/-- Retry ceiling `MAX_RETRIES` of `_execute_query`. -/
def MAX_RETRIES : Nat := 5

/-- Loop of `GraphRepository._execute_query`.  `att i` is the outcome of the
i-th call attempt and `jit k` the random jitter (in milliseconds, the source
draws `randint(0, 100) / 1000.0` seconds) added to the k-th wait.  `left` is
`MAX_RETRIES - retries`, so the loop raises on a rate-limit failure once
`left = 0`, and the k-th retry waits `500 * 2 ^ k + jit k` milliseconds
(`0.5 * 2 ** retries` seconds in the source, with `retries` incremented
first).  A failure whose text contains `"404"` (and is not rate-limited, that
branch is tested first) returns the empty result list; any other failure is
raised.  Returns the result and the list of waits performed. -/
def execLoop (att : Nat → Attempt) (jit : Nat → Nat) :
    Nat → Nat → Except String (List String) × List Nat
  | i, left =>
    match att i with
    | .succeeds rows => (Except.ok rows, [])
    | .fails m =>
      if isRateLimited m then
        match left with
        | 0 => (Except.error m, [])
        | l + 1 =>
          let w := 500 * 2 ^ (MAX_RETRIES - l) + jit (MAX_RETRIES - l)
          let rest := execLoop att jit (i + 1) l
          (rest.1, w :: rest.2)
      else if isNotFound m then (Except.ok [], [])
      else (Except.error m, [])

/-- Entry point of `_execute_query`: `retries = 0`, so `left = MAX_RETRIES`. -/
def execQuery (att : Nat → Attempt) (jit : Nat → Nat) : Except String (List String) × List Nat :=
  execLoop att jit 0 MAX_RETRIES

/- ===== GraphRepository: batched deletion loop ===== -/

/-- Batch size of `delete_data_by_filename`. -/
def BATCH_SIZE : Nat := 20

/-- Effect on the remaining match count of one `limit(BATCH_SIZE).drop()`
batch: the store drops `min BATCH_SIZE n` of the `n` matching nodes. -/
def dropBatch (n : Nat) : Nat := n - min BATCH_SIZE n

/-- Count-then-drop loop of `delete_data_by_filename` on a store holding `n`
nodes that match the document filter: re-checks the count, stops at zero,
otherwise drops a batch and repeats.  Returns the number of drop batches
issued and the remaining match count at exit. -/
def deleteLoop (n : Nat) : Nat × Nat :=
  if h : n = 0 then (0, 0)
  else
    let rest := deleteLoop (dropBatch n)
    (rest.1 + 1, rest.2)
termination_by n
decreasing_by simp only [dropBatch, BATCH_SIZE]; omega

/- ===== GraphService: risk classification tables ===== -/

/-- Operational category tables at the top of `graph_service.py`. -/
def CAUSE_LABELS : List String :=
  ["CAUSE", "LED_TO", "CAUSES", "CAUSED", "TRIGGERED", "SOURCE_OF", "PRECEDED_BY"]

/-- Effect labels table. -/
def EFFECT_LABELS : List String :=
  ["EFFECT", "RESULTED_IN", "RESULTS_IN", "IMPACTED", "AFFECTED", "CONSEQUENCE_OF", "HAS_EFFECT"]

/-- Sequence labels table. -/
def SEQUENCE_LABELS : List String :=
  ["NEXT", "NEXT_STEP", "FOLLOWED_BY", "PRECEDES", "THEN"]

/-- Mirror of `GraphService._determine_risk_category`: uppercase and strip the
label, then look it up in the static tables. -/
def determineRiskCategory (label : String) : String :=
  let clean := pyStrip (pyUpper label)
  if CAUSE_LABELS.contains clean then "Cause"
  else if EFFECT_LABELS.contains clean then "Effect"
  else if SEQUENCE_LABELS.contains clean then "Process"
  else ""

/- ===== GraphService: small helpers ===== -/

/-- Hexadecimal digit test used by UUID parsing. -/
def isHexDigit (c : Char) : Bool :=
  c.isDigit || (c.toLower ≥ 'a' && c.toLower ≤ 'f')

/-- Brace character test (Python `strip` over the set of both braces). -/
def isBrace (c : Char) : Bool := c = '\x7b' || c = '\x7d'

/-- Fuel-driven removal of every occurrence of a nonempty pattern, mirroring
Python `str.replace(pat, "")`; the fuel is the input length, enough for the
scan to finish. -/
def removeOcc (pat : List Char) : Nat → List Char → List Char
  | _, [] => []
  | 0, l => l
  | fuel + 1, c :: rest =>
    if ¬ pat.isEmpty ∧ pat.isPrefixOf (c :: rest) then
      removeOcc pat fuel ((c :: rest).drop pat.length)
    else c :: removeOcc pat fuel rest

/-- Python `s.replace(pat, "")`. -/
def pyRemove (pat s : String) : String := String.mk (removeOcc pat.data s.data.length s.data)

/-- Mirror of `GraphService._is_uuid` via Python `uuid.UUID(str)` on its
canonical forms: drop `urn:` and `uuid:` markers, strip braces at the ends,
drop every dash, and require exactly 32 hexadecimal digits. -/
def isUuid (s : String) : Bool :=
  let t1 := pyRemove "uuid:" (pyRemove "urn:" s)
  let t2 := ((t1.data.dropWhile isBrace).reverse.dropWhile isBrace).reverse
  let t3 := t2.filter fun c => c ≠ '-'
  t3.length == 32 && t3.all isHexDigit

/-- Identifier sanitizing of `GraphService._clean_id`: every character outside
`[a-zA-Z0-9]` becomes an underscore. -/
def sanitizeId (s : String) : String :=
  String.mk (s.data.map fun c => if c.isAlphanum then c else '_')

/-- Mirror of `GraphService._clean_id`: strip the value, sanitize it, and tag
it with the node type. -/
def cleanId (tag value : String) : String := tag ++ "_" ++ sanitizeId (pyStrip value)

/-- Remove the extension (`rsplit(".", 1)[0]`): the text before the last dot,
or the whole string when there is no dot. -/
def dropLastExt (s : String) : String :=
  match s.data.reverse.dropWhile (fun c => c ≠ '.') with
  | [] => s
  | _ :: rest => String.mk rest.reverse

/-- Mirror of `GraphService._derive_domain`: empty filenames give
`"general"`; otherwise the extension is removed and the part before the first
underscore is kept (`base.split("_")[0]`). -/
def deriveDomain (filename : String) : String :=
  if filename = "" then "general"
  else
    let base := dropLastExt filename
    if subIn "_" base then String.mk (base.data.takeWhile fun c => c ≠ '_') else base

/-- Python `str.title` word state machine: a letter is uppercased when the
previous character was not a letter and lowercased otherwise. -/
def pyTitleGo : Bool → List Char → List Char
  | _, [] => []
  | prevAlpha, c :: rest =>
    if c.isAlpha then (if prevAlpha then c.toLower else c.toUpper) :: pyTitleGo true rest
    else c :: pyTitleGo false rest

/-- Mirror of Python `str.title()`. -/
def pyTitle (s : String) : String := String.mk (pyTitleGo false s.data)

/- ===== GraphService: entity update and delete pipelines ===== -/

/-- Payload of a node update as the API hands it to the service: scalar
entries at top level (possibly `label`, `type`, `documentId` and a
partition-key entry) plus the nested `properties` map. -/
structure UpdatePayload where
  top : List (String × String)
  properties : List (String × String)
deriving Repr, DecidableEq

/-- Step 1 of `GraphService.update_entity`: a partition-key entry whose value
parses as a UUID or equals the node id is deleted from the dictionary. -/
def stripBadPk (pkKey entityId : String) (m : List (String × String)) : List (String × String) :=
  match getA m pkKey with
  | some v => if isUuid v || v = entityId then delA m pkKey else m
  | none => m

/-- Partition-key resolution shared by the update pipeline (steps 2 to 4 of
`GraphService.update_entity`): drop the router fallback (`key == id`), map a
`.csv` filename to its domain, drop UUID guesses, and finally fall back to
the auto-discovery lookup `g.V(id).values(pk)` whose result is
`storedPkLookup` (`none` when the node or the key is absent). -/
def resolveUpdatePk (entityId : String) (partitionKey : Option String)
    (storedPkLookup : Option String) : Option String :=
  let t1 := if partitionKey = some entityId then none else partitionKey
  let t2 :=
    match t1 with
    | some p => if p ≠ "" && pyEndsWith p ".csv" then some (deriveDomain p) else some p
    | none => none
  let t3 :=
    match t2 with
    | some p => if p ≠ "" && isUuid p then none else some p
    | none => none
  match t3 with
  | some p =>
    if p = "" then
      match storedPkLookup with
      | some v => if v = "" then some p else some v
      | none => some p
    else some p
  | none =>
    match storedPkLookup with
    | some v => if v = "" then none else some v
    | none => none

/-- Steps 1 to 5 of `GraphService.update_entity`: strip bad partition keys
from both dictionaries, resolve the true key, and assemble the final property
map (inner properties, then the verified key and document id, then the label
and title-cased type enforcement). -/
def serviceUpdateProps (pkKey entityId : String) (payload : UpdatePayload)
    (partitionKey : Option String) (storedPkLookup : Option String) : List (String × String) :=
  let inner0 := payload.properties
  let docId : Option String :=
    match getTruthy inner0 "documentId" with
    | some v => some v
    | none => getA payload.top "documentId"
  let top1 := stripBadPk pkKey entityId payload.top
  let inner1 := stripBadPk pkKey entityId inner0
  let truePk := resolveUpdatePk entityId partitionKey storedPkLookup
  let fp1 :=
    match truePk with
    | some p => if p = "" then inner1 else setA inner1 pkKey p
    | none => inner1
  let fp2 :=
    match docId with
    | some d => if d = "" then fp1 else setA fp1 "documentId" d
    | none => fp1
  let fp3 :=
    if hasA top1 "label" then
      let lv := (getA top1 "label").getD ""
      setA (setA fp2 "name" lv) "label" lv
    else fp2
  let nodeType : Option String :=
    match getTruthy top1 "type" with
    | some v => some v
    | none => getA inner1 "type"
  match nodeType with
  | some v =>
    if v = "" then fp3
    else
      let ct := pyTitle (pyStrip v)
      setA (setA (setA fp3 "normType" ct) "type" ct) "entityType" ct
  | none => fp3

/-- Repository query issued by `GraphService.update_entity`: the source calls
`repo.update_entity(entity_id, final_props)` without a partition-key
argument, so the repository has-filter falls back to the entity id. -/
def serviceUpdateQuery (pkKey entityId : String) (payload : UpdatePayload)
    (partitionKey : Option String) (storedPkLookup : Option String) : String :=
  updateEntityQuery pkKey entityId
    (serviceUpdateProps pkKey entityId payload partitionKey storedPkLookup) none

/-- Partition-key resolution of `GraphService.delete_entity` (the same
ingredients as the update pipeline, with the UUID check before the `.csv`
check): the resolved key is what the source passes to
`repo.delete_entity(entity_id, true_pk)`. -/
def serviceDeletePk (entityId : String) (partitionKey : Option String)
    (storedPkLookup : Option String) : Option String :=
  let t1 := if partitionKey = some entityId then none else partitionKey
  let t2 :=
    match t1 with
    | some p => if p ≠ "" && isUuid p then none else some p
    | none => none
  let t3 :=
    match t2 with
    | some p => if p ≠ "" && pyEndsWith p ".csv" then some (deriveDomain p) else some p
    | none => none
  match t3 with
  | some p =>
    if p = "" then
      match storedPkLookup with
      | some v => if v = "" then some p else some v
      | none => some p
    else some p
  | none =>
    match storedPkLookup with
    | some v => if v = "" then none else some v
    | none => none

/-- Repository query issued by `GraphService.delete_entity`. -/
def serviceDeleteQuery (pkKey entityId : String) (partitionKey : Option String)
    (storedPkLookup : Option String) : String :=
  deleteEntityQuery pkKey entityId (serviceDeletePk entityId partitionKey storedPkLookup)

/- ===== GraphService: relationship writes ===== -/

/-- Property map stored by `GraphService.add_relationship`.  `nodeLookup`
models the context-inheritance query on the source node, projecting its
`documentId` and partition key (empty strings when the node lacks them);
`none` models a failed lookup.  The query runs only when the caller supplied
neither `doc` nor `documentId`. -/
def addRelationshipProps (pkKey relType : String) (props : List (String × String))
    (nodeLookup : Option (String × String)) : List (String × String) :=
  let riskCat := determineRiskCategory relType
  let p1 := if riskCat ≠ "" then setA props "riskCategory" riskCat else props
  if ¬ (hasA p1 "doc" || hasA p1 "documentId") then
    match nodeLookup with
    | some (doc, pk) =>
      let p2 := if doc ≠ "" then setA (setA p1 "documentId" doc) "doc" doc else p1
      if pk ≠ "" then setA (setA p2 pkKey pk) "domain" pk else p2
    | none => p1
  else p1

/-- Property map stored by one iteration of `GraphService.add_relationships`:
the derived risk category overrides the caller value when the label is
classified, and a truthy relationship id is copied into `edge_id`. -/
def addRelationshipsItemProps (relLabel : String) (props : List (String × String))
    (edgeId : Option String) : List (String × String) :=
  let risk := determineRiskCategory relLabel
  let p1 := if risk ≠ "" then setA props "riskCategory" risk else props
  match edgeId with
  | some eid => if eid = "" then p1 else setA p1 "edge_id" eid
  | none => p1

/- ===== GraphService: CSV ingestion (type detection) ===== -/

/-- Regex `^b\d+$` under `re.match`: a `b` followed by one or more digits,
to the end of the value. -/
def matchBNum (v : String) : Bool :=
  match v.data with
  | c :: rest => c = 'b' && ¬ rest.isEmpty && rest.all Char.isDigit
  | [] => false

/-- Regex `^c\d+$` under `re.match`. -/
def matchCNum (v : String) : Bool :=
  match v.data with
  | c :: rest => c = 'c' && ¬ rest.isEmpty && rest.all Char.isDigit
  | [] => false

/-- Regex `\d{4}-\d{2}-\d{2}` under `re.match`: a date-shaped prefix. -/
def matchDate (v : String) : Bool :=
  match v.data with
  | a :: b :: c :: d :: e :: f :: g :: h :: i :: j :: _ =>
    a.isDigit && b.isDigit && c.isDigit && d.isDigit && e = '-' &&
      f.isDigit && g.isDigit && h = '-' && i.isDigit && j.isDigit
  | _ => false

/-- Mirror of `GraphService._detect_type`: semantic node type from the
normalized column header and the cell value. -/
def detectType (header value : String) : String :=
  let h := pyLower header
  let v := pyLower value
  if subIn "customer" h then "Customer"
  else if subIn "vendor" h then "Vendor"
  else if subIn "branch" h then "Branch"
  else if subIn "activity" h || subIn "action" h then "Activity"
  else if subIn "time" h || subIn "date" h then "Time"
  else if subIn "state" h then "State"
  else if subIn "region" h then "Region"
  else if subIn "account" h then (if subIn "type" h then "AccountType" else "Account")
  else if subIn "product" h then "Product"
  else if subIn "balance" h || subIn "amount" h || subIn "inr" h || subIn "$" h then
    (if subIn "claim" h then "ClaimAmount"
     else if subIn "loan" h then "LoanAmount"
     else if subIn "premium" h then "PremiumAmount"
     else "Amount")
  else if subIn "loan_type" h then "LoanType"
  else if subIn "deductible" h then "Deductible"
  else if subIn "premium" h then "PremiumAmount"
  else if subIn "customer_lifetime_value" h || subIn "clv" h then "CustomerLifetimeValue"
  else if subIn "job" h then "Job"
  else if subIn "marital" h then "MaritalStatus"
  else if subIn "age" h || subIn "sex" h || subIn "gender" h then "Demographics"
  else if subIn "driverrating" h || subIn "experience" h then "DriverProfile"
  else if subIn "agent" h || subIn "repnumber" h then "Agent"
  else if subIn "outcome" h then "Outcome"
  else if subIn "channel" h then "Channel"
  else if subIn "nps" h then "NPS"
  else if subIn "claim_type" h then "ClaimType"
  else if subIn "file_name" h || subIn "document" h then "Document"
  else if subIn "pages" h then "PageCount"
  else if subIn "status" h then "Status"
  else if subIn "policy" h then (if subIn "type" h then "PolicyType" else "Policy")
  else if subIn "fraud" h then "FraudFlag"
  else if subIn "risk" h then "RiskLevel"
  else if subIn "accident" h || subIn "incident" h then
    (if subIn "type" h then "IncidentType"
     else if subIn "severity" h then "IncidentSeverity"
     else if subIn "previous" h then "IncidentHistory"
     else "Incident")
  else if subIn "fault" h then "Fault"
  else if subIn "authorities" h || subIn "police" h then "Authority"
  else if subIn "witness" h then "Witness"
  else if subIn "vehicle" h || subIn "auto" h || subIn "car" h then
    (if subIn "class" h then "VehicleClass"
     else if subIn "make" h then "VehicleMake"
     else if subIn "model" h then "VehicleModel"
     else if subIn "year" h || subIn "age" h then "VehicleAge"
     else if subIn "size" h then "VehicleSize"
     else "Vehicle")
  else if subIn "device" h then "Device"
  else if subIn "sensor" h then "SensorValue"
  else if subIn "alarm" h then "AlarmClass"
  else if matchBNum v then "Branch"
  else if matchCNum v then "Customer"
  else if matchDate v then "Time"
  else "Attribute"

/- ===== GraphService: AI risk ingestion analysis ===== -/

/-- Insight record returned by `GraphService._ai_ingestion_analysis`. -/
structure AiInsights where
  riskLevel : String
  isCause : String
  isEffect : String
  riskCategory : Option String
  aiSummary : String
deriving Repr, DecidableEq

/-- High-risk tripwire keywords of `_ai_ingestion_analysis`. -/
def HIGH_RISK_KEYWORDS : List String :=
  ["fail", "error", "timeout", "reject", "denied", "fraud", "divergent",
   "anomaly", "breach", "claim", "loss", "complaint", "damage", "theft",
   "collision", "declined", "no_result", "failure"]

/-- Terminal-state keywords of the second tripwire branch. -/
def TERMINAL_KEYWORDS : List String :=
  ["closed", "block", "suspend", "locked", "rejeitado", "terminated", "cleared", "resolution"]

/-- Mirror of `GraphService._ai_ingestion_analysis` on the lowercased label. -/
def aiIngestionAnalysis (activityLabel : String) : AiInsights :=
  let text := pyLower activityLabel
  if HIGH_RISK_KEYWORDS.any (fun w => subIn w text) then
    { riskLevel := "High", isCause := "True", isEffect := "False", riskCategory := some "Cause",
      aiSummary := "AI Risk Flag: \x27" ++ activityLabel ++
        "\x27 indicates a critical failure, claim, or anomaly." }
  else if TERMINAL_KEYWORDS.any (fun w => subIn w text) then
    { riskLevel := "Medium", isCause := "False", isEffect := "True", riskCategory := some "Effect",
      aiSummary := "AI Risk Flag: \x27" ++ activityLabel ++
        "\x27 is a punitive, resolution, or terminal state." }
  else
    { riskLevel := "Low", isCause := "False", isEffect := "False", riskCategory := none,
      aiSummary := "Standard operational step." }

/-- Semantic sequence label and risk category that step F derives from the
AI insight flags of the current activity label. -/
def seqLabelFor (currentLabel : String) : String × String :=
  let ins := aiIngestionAnalysis currentLabel
  if ins.isCause = "True" then ("CAUSES", "Cause")
  else if ins.isEffect = "True" then ("RESULTS_IN", "Effect")
  else ("NEXT", "Process")

/- ===== GraphService: CSV ingestion state machine ===== -/

/-- Entity candidate collected in `all_entities_map`. -/
structure CsvEntity where
  eid : String
  elabel : String
  etype : String
  props : List (String × String)
deriving Repr, DecidableEq

/-- Relationship candidate collected in `all_relationships`. -/
structure CsvRel where
  rid : Option String
  src : String
  dst : String
  rlabel : String
  props : List (String × String)
deriving Repr, DecidableEq

/-- Ingestion state: the entity map (insertion ordered), the relationship
list, the created-edge key set, and the per-case activity trackers. -/
structure CsvState where
  entities : List (String × CsvEntity)
  rels : List CsvRel
  created : List String
  tracker : List (String × String)
  trackerLabels : List (String × String)
deriving Repr, DecidableEq

/-- Key test on the entity map. -/
def hasKeyE : List (String × CsvEntity) → String → Bool
  | [], _ => false
  | (k, _) :: rest, key => k == key || hasKeyE rest key

/-- Mirror of `all_entities_map[eid]["properties"][k] = v` under its
`k not in properties` guard. -/
def setEntityPropIfAbsent (m : List (String × CsvEntity)) (eid k v : String) :
    List (String × CsvEntity) :=
  m.map fun p =>
    if p.1 = eid ∧ ¬ hasA p.2.props k then
      (p.1, { p.2 with props := p.2.props ++ [(k, v)] })
    else p

/-- Semantic relation label for a non-activity context node type (the elif
chain of the star-model edge builder, step E). -/
def semanticLabel (ctxType : String) : String :=
  if ctxType = "Customer" then "OWNED_BY"
  else if ctxType = "Agent" then "ASSIGNED_TO"
  else if ["Demographics", "MaritalStatus", "Job", "DriverProfile"].contains ctxType then
    "HAS_PROFILE"
  else if ["State", "Region", "Location", "Branch"].contains ctxType then "LOCATED_IN"
  else if ["Vehicle", "VehicleMake", "VehicleModel", "VehicleAge", "VehicleClass",
      "VehicleSize"].contains ctxType then "HAS_VEHICLE"
  else if ["Amount", "ClaimAmount", "PremiumAmount", "LoanAmount", "Deductible",
      "FinancialValue"].contains ctxType then "HAS_AMOUNT"
  else if ["Product", "Policy", "PolicyType", "Account", "AccountType",
      "LoanType"].contains ctxType then "HAS_POLICY"
  else if ["Incident", "IncidentType", "IncidentSeverity"].contains ctxType then "INVOLVED_IN"
  else if ["FraudFlag", "RiskLevel", "Fault"].contains ctxType then "HAS_RISK_FLAG"
  else if ["Status", "Outcome"].contains ctxType then "HAS_STATUS"
  else if ctxType = "Channel" then "VIA_CHANNEL"
  else "LINKED_TO"

/-- Cell read `str(row[col])` on a parsed row (column name to cell text). -/
def rowGet (row : List (String × String)) (col : String) : String := (getA row col).getD ""

/-- Context node collected in `row_context_nodes`. -/
structure CtxNode where
  cid : String
  ctype : String
  cval : String
deriving Repr, DecidableEq

/-- Column loop of `_process_csv_graph` (step D): skip blank, case-column and
ban-listed values, skip `Time`-typed values, track the current activity, and
create the context node plus its document link when new. -/
def doCols (pkKey filename domain caseCol : String) (banlist : List String)
    (row : List (String × String)) :
    List String → CsvState → Option (String × String) → List CtxNode →
      CsvState × Option (String × String) × List CtxNode
  | [], st, cur, ctx => (st, cur, ctx)
  | col :: rest, st, cur, ctx =>
    let val := pyStrip (rowGet row col)
    if val = "" || pyLower val = "nan" then
      doCols pkKey filename domain caseCol banlist row rest st cur ctx
    else if col = caseCol then
      doCols pkKey filename domain caseCol banlist row rest st cur ctx
    else if banlist.contains val then
      doCols pkKey filename domain caseCol banlist row rest st cur ctx
    else
      let nt := detectType col val
      if nt = "Time" then doCols pkKey filename domain caseCol banlist row rest st cur ctx
      else
        let nid := cleanId nt val
        let cur2 := if nt = "Activity" then some (nid, val) else cur
        let ctx2 := ctx ++ [⟨nid, nt, val⟩]
        if hasKeyE st.entities nid then
          doCols pkKey filename domain caseCol banlist row rest st cur2 ctx2
        else
          let ent : CsvEntity :=
            { eid := nid, elabel := val, etype := nt,
              props := [("name", val), ("normType", nt), ("documentId", filename),
                (pkKey, domain)] }
          let st2 := { st with entities := st.entities ++ [(nid, ent)] }
          let ekey := filename ++ "_" ++ nid ++ "_HAS"
          let hasRel : CsvRel :=
            { rid := none, src := filename, dst := nid,
              rlabel := "HAS_" ++ pyUpper nt, props := [("doc", filename)] }
          let st3 :=
            if st2.created.contains ekey then st2
            else { st2 with rels := st2.rels ++ [hasRel], created := st2.created ++ [ekey] }
          doCols pkKey filename domain caseCol banlist row rest st3 cur2 ctx2

/-- Star-model edge builder of `_process_csv_graph` (step E): a `PERFORMS`
edge with timestamp for the activity, a semantic edge for every other
context node. -/
def starEdges (filename caseId timeVal : String) : List CtxNode → CsvState → CsvState
  | [], st => st
  | ctx :: rest, st =>
    if ctx.ctype = "Activity" then
      let key := caseId ++ "_" ++ ctx.cid ++ "_PERFORMS_" ++ timeVal
      let e : CsvRel :=
        { rid := some key, src := caseId, dst := ctx.cid,
          rlabel := "PERFORMS", props := [("timestamp", timeVal), ("doc", filename)] }
      let st2 :=
        if st.created.contains key then st
        else { st with rels := st.rels ++ [e], created := st.created ++ [key] }
      starEdges filename caseId timeVal rest st2
    else
      let relLabel := semanticLabel ctx.ctype
      let key := caseId ++ "_" ++ ctx.cid ++ "_" ++ relLabel ++ "_" ++ timeVal
      let e : CsvRel :=
        { rid := some key, src := caseId, dst := ctx.cid,
          rlabel := relLabel, props := [("timestamp", timeVal), ("doc", filename)] }
      let st2 :=
        if st.created.contains key then st
        else { st with rels := st.rels ++ [e], created := st.created ++ [key] }
      starEdges filename caseId timeVal rest st2

/-- Sequence logic of `_process_csv_graph` (step F, semantic override): when
the current activity differs from the tracked previous one, emit one
transition edge labeled by `seqLabelFor`, annotate the two activity nodes
with `cause` / `effect`, and finally update the per-case tracker. -/
def seqStep (filename caseVal caseId : String) (idx : Nat) (timeVal : String)
    (cur : Option (String × String)) (st : CsvState) : CsvState :=
  match cur with
  | none => st
  | some (curId, curLabel) =>
    let st4 :=
      match getA st.tracker caseId with
      | none => st
      | some prevId =>
        let prevLabel := (getA st.trackerLabels caseId).getD ""
        if prevId = curId then st
        else
          let sl := seqLabelFor curLabel
          let key := prevId ++ "_" ++ curId ++ "_" ++ sl.1 ++ "_" ++ toString idx
          let e : CsvRel :=
            { rid := some key, src := prevId, dst := curId, rlabel := sl.1,
              props := [("doc", filename), ("riskCategory", sl.2),
                ("case_ref", caseVal), ("timestamp", timeVal)] }
          let st2 :=
            if st.created.contains key then st
            else { st with rels := st.rels ++ [e], created := st.created ++ [key] }
          let st3 := { st2 with entities := setEntityPropIfAbsent st2.entities curId "cause" prevLabel }
          { st3 with entities := setEntityPropIfAbsent st3.entities prevId "effect" curLabel }
    { st4 with tracker := setA st4.tracker caseId curId,
               trackerLabels := setA st4.trackerLabels caseId curLabel }

/-- Per-row processing of `_process_csv_graph` (steps B to F): the case node
and its document link, the column loop, the star edges, and the sequence
logic. -/
def processRow (pkKey filename domain caseCol : String) (timeCol : Option String)
    (cols : List String) (banlist : List String) (idx : Nat)
    (row : List (String × String)) (st : CsvState) : CsvState :=
  let caseVal := pyStrip (rowGet row caseCol)
  let caseId := cleanId "Case" caseVal
  let st1 :=
    if hasKeyE st.entities caseId then st
    else
      let ent : CsvEntity :=
        { eid := caseId, elabel := caseVal, etype := "Case",
          props := [("name", caseVal), ("normType", "Case"), ("domain", domain),
            ("documentId", filename), (pkKey, domain)] }
      let st0 := { st with entities := st.entities ++ [(caseId, ent)] }
      let ekey := filename ++ "_" ++ caseId ++ "_CONTAINS"
      let e : CsvRel :=
        { rid := none, src := filename, dst := caseId,
          rlabel := "CONTAINS", props := [("doc", filename)] }
      if st0.created.contains ekey then st0
      else { st0 with rels := st0.rels ++ [e], created := st0.created ++ [ekey] }
  let dres := doCols pkKey filename domain caseCol banlist row cols st1 none []
  let timeVal :=
    match timeCol with
    | some tc => String.mk ((rowGet row tc).data.take 19)
    | none => ""
  let st2 := starEdges filename caseId timeVal dres.2.2 dres.1
  seqStep filename caseVal caseId idx timeVal dres.2.1 st2

/-- Case-column choice: the first column whose name contains `"case"` or
`"id"`, else the first column. -/
def pickCaseCol (cols : List String) : String :=
  match cols.find? (fun c => subIn "case" c || subIn "id" c) with
  | some c => c
  | none => cols.headD ""

/-- Time-column choice: the first column whose name contains `"time"` or
`"date"`. -/
def pickTimeCol (cols : List String) : Option String :=
  cols.find? fun c => subIn "time" c || subIn "date" c

/-- Row fold of `_process_csv_graph` with the running `iterrows` index. -/
def processRows (pkKey filename domain caseCol : String) (timeCol : Option String)
    (cols : List String) (banlist : List String) :
    Nat → List (List (String × String)) → CsvState → CsvState
  | _, [], st => st
  | idx, row :: rest, st =>
    processRows pkKey filename domain caseCol timeCol cols banlist (idx + 1) rest
      (processRow pkKey filename domain caseCol timeCol cols banlist idx row st)

/-- Mirror of `GraphService._process_csv_graph` on an already parsed
dataframe: `cols` are the normalized column names and `rows` the rows after
the case/time sort done by pandas.  The document node seeds the entity map;
the fold then yields the entity map and relationship list that the source
hands to `add_entities` and `add_relationships`. -/
def processCsvGraph (pkKey filename domain : String) (cols : List String)
    (rows : List (List (String × String))) : CsvState :=
  let caseCol := pickCaseCol cols
  let timeCol := pickTimeCol cols
  let banlist := rows.map fun r => pyStrip (rowGet r caseCol)
  let docEnt : CsvEntity :=
    { eid := filename, elabel := filename, etype := "Document",
      props := [("normType", "Document"), ("filename", filename),
        ("documentId", filename), ("status", "processed"), (pkKey, domain)] }
  processRows pkKey filename domain caseCol timeCol cols banlist 0 rows
    { entities := [(filename, docEnt)], rels := [], created := [],
      tracker := [], trackerLabels := [] }

/-- Transition (sequence) edges are exactly the edges carrying one of the
three labels that step F can emit. -/
def isTransitionEdge (r : CsvRel) : Bool :=
  r.rlabel = "NEXT" || r.rlabel = "CAUSES" || r.rlabel = "RESULTS_IN"

/-- Case-node stage of `processRow` for a two-column CSV keyed on `case_id`:
the Case entity and its document CONTAINS link. -/
def caseSeed (pkKey fn dom : String) (row : List (String × String)) (st : CsvState) : CsvState :=
  let caseVal := pyStrip (rowGet row "case_id")
  let caseId := cleanId "Case" caseVal
  if hasKeyE st.entities caseId then st
  else
    let ent : CsvEntity :=
      { eid := caseId, elabel := caseVal, etype := "Case",
        props := [("name", caseVal), ("normType", "Case"), ("domain", dom),
          ("documentId", fn), (pkKey, dom)] }
    let st0 := { st with entities := st.entities ++ [(caseId, ent)] }
    let ekey := fn ++ "_" ++ caseId ++ "_CONTAINS"
    let e : CsvRel :=
      { rid := none, src := fn, dst := caseId,
        rlabel := "CONTAINS", props := [("doc", fn)] }
    if st0.created.contains ekey then st0
    else { st0 with rels := st0.rels ++ [e], created := st0.created ++ [ekey] }

/-- Column, star and sequence stages of `processRow` for a two-column CSV
keyed on `case_id` with no time column. -/
def rowPipe (pkKey fn dom : String) (ban : List String) (row : List (String × String))
    (idx : Nat) (st1 : CsvState) : CsvState :=
  seqStep fn (pyStrip (rowGet row "case_id")) (cleanId "Case" (pyStrip (rowGet row "case_id")))
    idx ""
    (doCols pkKey fn dom "case_id" ban row ["case_id", "activity"] st1 none []).2.1
    (starEdges fn (cleanId "Case" (pyStrip (rowGet row "case_id"))) ""
      (doCols pkKey fn dom "case_id" ban row ["case_id", "activity"] st1 none []).2.2
      (doCols pkKey fn dom "case_id" ban row ["case_id", "activity"] st1 none []).1)

/- ===== Helper lemmas: strings as character lists ===== -/

/-- Equality of strings follows from equality of their character data. -/
theorem aux_string_ext (s t : String) (h : s.data = t.data) : s = t := by
  cases s
  cases t
  exact congrArg String.mk h

/-- Head character of an append, taken from a nonempty left part. -/
theorem aux_str_head_append (s t : String) (c : Char) (h : s.data.head? = some c) :
    (s ++ t).data.head? = some c := by
  rw [String.data_append, List.head?_append, h]
  rfl

/-- Last character of an append, taken from a nonempty right part. -/
theorem aux_str_last_append (s t : String) (c : Char) (h : t.data.getLast? = some c) :
    (s ++ t).data.getLast? = some c := by
  rw [String.data_append, List.getLast?_append, h]
  rfl

/-- Appending the empty string does not change the last character. -/
theorem aux_str_last_append_empty (s : String) : (s ++ "").data.getLast? = s.data.getLast? := by
  rw [String.data_append, List.getLast?_append]
  rfl

/-- Strings with distinct head characters differ. -/
theorem aux_str_ne_of_head (s t : String) (c d : Char) (hs : s.data.head? = some c)
    (ht : t.data.head? = some d) (hcd : c ≠ d) : s ≠ t := by
  intro he
  rw [he, ht] at hs
  exact hcd (Option.some.inj hs).symm

/-- Strings with distinct last characters differ. -/
theorem aux_str_ne_of_last (s t : String) (c d : Char) (hs : s.data.getLast? = some c)
    (ht : t.data.getLast? = some d) (hcd : c ≠ d) : s ≠ t := by
  intro he
  rw [he, ht] at hs
  exact hcd (Option.some.inj hs).symm

/-- Left cancellation of string append, in contrapositive form. -/
theorem aux_append_left_ne (s t1 t2 : String) (h : t1 ≠ t2) : s ++ t1 ≠ s ++ t2 := by
  intro he
  refine h (aux_string_ext _ _ ?_)
  have h2 := congrArg String.data he
  rw [String.data_append, String.data_append] at h2
  exact List.append_cancel_left h2

/-- Right cancellation of string append, in contrapositive form. -/
theorem aux_append_right_ne (s1 s2 t : String) (h : s1 ≠ s2) : s1 ++ t ≠ s2 ++ t := by
  intro he
  refine h (aux_string_ext _ _ ?_)
  have h2 := congrArg String.data he
  rw [String.data_append, String.data_append] at h2
  exact List.append_cancel_right h2

/-- Edge keys that share their document or case segment and their suffix
differ exactly when their middle segment differs. -/
theorem aux_seg_ne (d x y t : String) (h : x ≠ y) :
    d ++ "_" ++ x ++ t ≠ d ++ "_" ++ y ++ t :=
  aux_append_right_ne _ _ t (aux_append_left_ne (d ++ "_") x y h)

/-- Membership check failure on a created-edge key list. -/
theorem aux_contains_false (l : List String) (a : String) (h : ∀ x ∈ l, x ≠ a) :
    l.contains a = false := by
  induction l with
  | nil => rfl
  | cons b bs ih =>
    rw [List.contains_cons]
    rw [beq_eq_false_iff_ne.mpr (Ne.symm (h b (by simp)))]
    rw [ih fun x hx => h x (by simp [hx])]
    rfl

/- ===== Helper lemmas: association lists ===== -/

/-- Reading back the key just assigned. -/
theorem aux_getA_setA_self (m : List (String × String)) (k v : String) :
    getA (setA m k v) k = some v := by
  induction m with
  | nil => simp [setA, getA]
  | cons p rest ih =>
    obtain ⟨k2, v2⟩ := p
    by_cases h : k2 = k
    · simp [setA, h, getA]
    · simp [setA, h, getA, ih]

/-- Assignment to a different key leaves a read unchanged. -/
theorem aux_getA_setA_ne (m : List (String × String)) (k2 v k : String) (h : k2 ≠ k) :
    getA (setA m k2 v) k = getA m k := by
  induction m with
  | nil => simp [setA, getA, h]
  | cons p rest ih =>
    obtain ⟨k3, v3⟩ := p
    by_cases h3 : k3 = k2
    · simp [setA, h3, getA, h]
    · simp only [setA, h3, if_false]
      by_cases h4 : k3 = k
      · simp [getA, h4]
      · simp [getA, h4, ih]

/-- Property steps that never touch a key leave its stored value unchanged. -/
theorem aux_applySteps_getA (steps : List (String × String)) (n : GNode) (k : String)
    (h : ∀ kv ∈ steps, kv.1 ≠ k) :
    getA (applySteps n steps).props k = getA n.props k := by
  induction steps generalizing n with
  | nil => rfl
  | cons kv rest ih =>
    obtain ⟨k2, v2⟩ := kv
    rw [applySteps]
    rw [ih _ fun x hx => h x (by simp [hx])]
    exact aux_getA_setA_ne _ _ _ _ (h (k2, v2) (by simp))

/-- The property loop of `create_entity` never emits a step for the
partition-key name. -/
theorem aux_createSteps_ne (pkKey : String) (props : List (String × Option String)) :
    ∀ kv ∈ createSteps pkKey props, kv.1 ≠ pkKey := by
  induction props with
  | nil => simp [createSteps]
  | cons p rest ih =>
    obtain ⟨k, v⟩ := p
    by_cases hs : k = "id" ∨ k = "pk" ∨ k = "partitionKey" ∨ k = pkKey
    · simpa [createSteps, hs] using ih
    · cases v with
      | none => simpa [createSteps, hs] using ih
      | some v2 =>
        intro kv hkv
        rw [createSteps] at hkv
        simp only [hs, if_false] at hkv
        rcases List.mem_cons.mp hkv with h1 | h2
        · rw [h1]
          intro hc
          exact hs (Or.inr (Or.inr (Or.inr hc)))
        · exact ih kv h2

/- ===== Claim C1 ===== -/

/-- Claim C1: every remote query that fails with a rate-limit signal (error
text containing "429" or "RequestRateTooLarge") is retried after a wait of
`base * 2 ^ attempt` plus random jitter (here in milliseconds:
`500 * 2 ^ k + jit k` for the k-th retry), up to the fixed ceiling
`MAX_RETRIES = 5`, after which the error is raised; in particular a call that
is rate-limited on the first two attempts and succeeds on the third returns
that success with exactly the two backoff waits, and the caller observes no
error. -/
theorem C1_throttling_retry_policy (attA attB : Nat → Attempt) (jit : Nat → Nat)
    (m1 m2 : String) (v : List String) (mB : Nat → String)
    (hA0 : attA 0 = Attempt.fails m1) (hA1 : attA 1 = Attempt.fails m2)
    (hA2 : attA 2 = Attempt.succeeds v)
    (hm1 : isRateLimited m1 = true) (hm2 : isRateLimited m2 = true)
    (hB : ∀ i, i ≤ MAX_RETRIES → attB i = Attempt.fails (mB i))
    (hmB : ∀ i, i ≤ MAX_RETRIES → isRateLimited (mB i) = true) :
    execQuery attA jit = (Except.ok v, [500 * 2 ^ 1 + jit 1, 500 * 2 ^ 2 + jit 2]) ∧
    execQuery attB jit = (Except.error (mB 5),
      [500 * 2 ^ 1 + jit 1, 500 * 2 ^ 2 + jit 2, 500 * 2 ^ 3 + jit 3,
       500 * 2 ^ 4 + jit 4, 500 * 2 ^ 5 + jit 5]) := by
  constructor
  · simp only [execQuery, MAX_RETRIES]
    rw [execLoop, hA0]
    simp only [hm1, if_true]
    rw [execLoop, hA1]
    simp only [hm2, if_true]
    rw [execLoop, hA2]
    norm_num [MAX_RETRIES]
  · simp only [execQuery, MAX_RETRIES]
    rw [execLoop, hB 0 (by decide)]
    simp only [hmB 0 (by decide), if_true]
    rw [execLoop, hB 1 (by decide)]
    simp only [hmB 1 (by decide), if_true]
    rw [execLoop, hB 2 (by decide)]
    simp only [hmB 2 (by decide), if_true]
    rw [execLoop, hB 3 (by decide)]
    simp only [hmB 3 (by decide), if_true]
    rw [execLoop, hB 4 (by decide)]
    simp only [hmB 4 (by decide), if_true]
    rw [execLoop, hB 5 (by decide)]
    simp only [hmB 5 (by decide), if_true]
    norm_num [MAX_RETRIES]

/-- Witness for C1 at a concrete attempt stream and jitter. -/
theorem C1_throttling_retry_policy_witness :
    execQuery (fun i => if i < 2 then Attempt.fails "429 throttled" else Attempt.succeeds ["row"])
        (fun k => k) =
      (Except.ok ["row"], [500 * 2 ^ 1 + 1, 500 * 2 ^ 2 + 2]) ∧
    execQuery (fun _ => Attempt.fails "RequestRateTooLarge") (fun k => k) =
      (Except.error "RequestRateTooLarge",
       [500 * 2 ^ 1 + 1, 500 * 2 ^ 2 + 2, 500 * 2 ^ 3 + 3, 500 * 2 ^ 4 + 4, 500 * 2 ^ 5 + 5]) :=
  C1_throttling_retry_policy
    (fun i => if i < 2 then Attempt.fails "429 throttled" else Attempt.succeeds ["row"])
    (fun _ => Attempt.fails "RequestRateTooLarge") (fun k => k)
    "429 throttled" "429 throttled" ["row"] (fun _ => "RequestRateTooLarge")
    rfl rfl rfl (by decide) (by decide) (fun _ _ => rfl) (fun _ _ => rfl)

/- ===== Claim C6 ===== -/

/-- Claim C6: document-scoped deletion removes matching nodes in batches of
`BATCH_SIZE = 20`, re-checking the remaining match count after each batch,
and for every initial count it terminates with zero remaining matches after
exactly `ceil(n / 20)` drop batches (the loop converges rather than raising). -/
theorem C6_batched_deletion_converges (n : Nat) :
    (deleteLoop n).2 = 0 ∧ (deleteLoop n).1 = (n + 19) / 20 := by
  induction n using Nat.strong_induction_on with
  | _ n ih =>
    rw [deleteLoop]
    by_cases h : n = 0
    · simp [h]
    · have hd : dropBatch n < n := by simp only [dropBatch, BATCH_SIZE]; omega
      have := ih (dropBatch n) hd
      simp only [h, dite_false]
      refine ⟨this.1, ?_⟩
      rw [this.2]
      simp only [dropBatch, BATCH_SIZE]
      omega

/- ===== Claim C9 ===== -/

/-- Amended claim C9: a remote failure whose message contains "404" is
swallowed and the caller observes success with an empty result, provided the
message carries no rate-limit signal: the "429"/"RequestRateTooLarge" branch
is tested first and takes precedence.  Consequently an error propagated to
the caller from any query — mutating ones included — is never a plain
not-found error: it is rate-limited or free of "404". -/
theorem C9_notfound_swallowed_amended :
    (∀ (att : Nat → Attempt) (jit : Nat → Nat) (i left : Nat) (m : String),
      att i = Attempt.fails m → isRateLimited m = false → isNotFound m = true →
      execLoop att jit i left = (Except.ok [], [])) ∧
    (∀ (att : Nat → Attempt) (jit : Nat → Nat) (left i : Nat) (m : String)
      (ws : List Nat), execLoop att jit i left = (Except.error m, ws) →
      isRateLimited m = true ∨ isNotFound m = false) := by
  constructor
  · intro att jit i left m hf hr hn
    rw [execLoop, hf]
    simp [hr, hn]
  · intro att jit left
    induction left with
    | zero =>
      intro i m ws he
      rw [execLoop] at he
      cases hai : att i with
      | succeeds rows => rw [hai] at he; simp at he
      | fails m2 =>
        rw [hai] at he
        by_cases hr : isRateLimited m2 = true
        · simp only [hr, if_true] at he
          have hm : m2 = m := by
            have := congrArg Prod.fst he
            simpa using this
          left
          rwa [← hm]
        · by_cases hn : isNotFound m2 = true
          · simp [hr, hn] at he
          · simp only [hr, hn, if_false, Bool.false_eq_true] at he
            have hm : m2 = m := by
              have := congrArg Prod.fst he
              simpa using this
            right
            rw [← hm]
            exact Bool.eq_false_iff.mpr hn
    | succ l ihl =>
      intro i m ws he
      rw [execLoop] at he
      cases hai : att i with
      | succeeds rows => rw [hai] at he; simp at he
      | fails m2 =>
        rw [hai] at he
        by_cases hr : isRateLimited m2 = true
        · simp only [hr, if_true] at he
          have h1 : (execLoop att jit (i + 1) l).1 = Except.error m := by
            have := congrArg Prod.fst he
            simpa using this
          have h2 : execLoop att jit (i + 1) l =
              (Except.error m, (execLoop att jit (i + 1) l).2) := by
            rw [← h1]
          exact ihl (i + 1) m (execLoop att jit (i + 1) l).2 h2
        · by_cases hn : isNotFound m2 = true
          · simp [hr, hn] at he
          · simp only [hr, hn, if_false, Bool.false_eq_true] at he
            have hm : m2 = m := by
              have := congrArg Prod.fst he
              simpa using this
            right
            rw [← hm]
            exact Bool.eq_false_iff.mpr hn

/-- Witness for the amended C9 at concrete attempt streams. -/
theorem C9_notfound_swallowed_amended_witness :
    execLoop (fun _ => Attempt.fails "status 404 not found") (fun _ => 0) 0 MAX_RETRIES =
      (Except.ok [], []) ∧
    (isRateLimited "connection reset" = true ∨ isNotFound "connection reset" = false) :=
  ⟨C9_notfound_swallowed_amended.1 (fun _ => Attempt.fails "status 404 not found") (fun _ => 0)
      0 MAX_RETRIES "status 404 not found" rfl (by decide) (by decide),
   C9_notfound_swallowed_amended.2 (fun _ => Attempt.fails "connection reset") (fun _ => 0)
      MAX_RETRIES 0 "connection reset" [] rfl⟩

/-- Counterexample for C9 as stated: an error whose message contains "404"
together with a rate-limit marker is retried and finally raised, so the
caller does observe an error although the message contains "404". -/
theorem C9_counterexample_rate_limit_precedence :
    isNotFound "429 RequestRateTooLarge then 404" = true ∧
    (execQuery (fun _ => Attempt.fails "429 RequestRateTooLarge then 404") (fun _ => 0)).1 =
      Except.error "429 RequestRateTooLarge then 404" :=
  ⟨by decide, rfl⟩

/- ===== Claim C7 ===== -/

/-- Claim C7 (code bug): the search keyword is interpolated into the Gremlin
query of `search_nodes` without passing through `_escape`, so an embedded
quote survives verbatim and the escaped form does not occur in the composed
query; the claim that every interpolated value is escaped fails here. -/
theorem C7_search_keyword_not_escaped :
    searchNodesQuery "O\x27Brien" 20 =
      "g.V().has(\x27label\x27, TextP.containing(\x27O\x27Brien\x27)).limit(20).valueMap(true)" ∧
    escape "O\x27Brien" = "O\\\x27Brien" ∧
    subIn (escape "O\x27Brien") (searchNodesQuery "O\x27Brien" 20) = false :=
  ⟨by decide, by decide, by decide⟩

/- ===== Claim C4 ===== -/

/-- Counterexample for C4 as stated: a node created without an explicit
partition key stores `pk = id` (the upsert fallback); a subsequent
`update_entity` whose property map carries a `pk` entry matches the node via
the `(id, id)` has-filter and overwrites the stored partition key, because
the update loop — unlike the upsert loop — does not skip partition-key keys. -/
theorem C4_counterexample_update_overwrites_pk :
    storedPk "pk" (upsertEntityApply "pk" none "n1" "Person" [("name", some "A")]) = some "n1" ∧
    updateEntityApply "pk"
        (some (upsertEntityApply "pk" none "n1" "Person" [("name", some "A")]))
        "n1" [("pk", "d2")] none =
      some { nid := "n1", nlabel := "Person",
             props := [("id", "n1"), ("pk", "d2"), ("name", "A")] } ∧
    storedPk "pk"
        { nid := "n1", nlabel := "Person",
          props := [("id", "n1"), ("pk", "d2"), ("name", "A")] } = some "d2" :=
  ⟨by decide, by decide, by decide⟩

/-- Amended claim C4: the upsert of `create_entity` sets the partition key
only in its create branch and skips partition-key keys in its property loop,
so an upsert against an existing node never changes the stored key, whatever
key value the properties supply; an `update_entity` call leaves the stored
key unchanged provided its property map contains no entry under the
partition-key name (the update loop itself skips nothing). -/
theorem C4_partition_immutability_amended :
    (∀ (pkKey : String) (n : GNode) (entityId label : String)
        (props : List (String × Option String)),
      storedPk pkKey (upsertEntityApply pkKey (some n) entityId label props) =
        storedPk pkKey n) ∧
    (∀ (pkKey : String) (n : GNode) (entityId : String) (props : List (String × String))
        (partitionKey : Option String), (∀ kv ∈ props, kv.1 ≠ pkKey) →
      (updateEntityApply pkKey (some n) entityId props partitionKey).map (storedPk pkKey) =
        some (storedPk pkKey n)) := by
  constructor
  · intro pkKey n entityId label props
    unfold upsertEntityApply storedPk
    exact aux_applySteps_getA _ _ _ (aux_createSteps_ne pkKey props)
  · intro pkKey n entityId props partitionKey h
    have hred : updateEntityApply pkKey (some n) entityId props partitionKey =
        if storedPk pkKey n = some (repoPkVal entityId partitionKey) then
          some (applySteps n props)
        else some n := rfl
    rw [hred]
    by_cases hm : storedPk pkKey n = some (repoPkVal entityId partitionKey)
    · rw [if_pos hm]
      simp only [Option.map_some', storedPk]
      rw [aux_applySteps_getA props n pkKey h]
    · rw [if_neg hm]
      simp

/-- Witness for the amended C4 at a concrete node and concrete calls. -/
theorem C4_partition_immutability_amended_witness :
    storedPk "pk"
        (upsertEntityApply "pk"
          (some { nid := "n1", nlabel := "Person", props := [("id", "n1"), ("pk", "dom")] })
          "n1" "Person" [("pk", some "evil"), ("name", some "B")]) =
      storedPk "pk"
        { nid := "n1", nlabel := "Person", props := [("id", "n1"), ("pk", "dom")] } ∧
    (updateEntityApply "pk"
        (some { nid := "n1", nlabel := "Person", props := [("id", "n1"), ("pk", "dom")] })
        "n1" [("name", "B")] (some "dom")).map (storedPk "pk") =
      some (storedPk "pk"
        { nid := "n1", nlabel := "Person", props := [("id", "n1"), ("pk", "dom")] }) :=
  ⟨C4_partition_immutability_amended.1 "pk"
      { nid := "n1", nlabel := "Person", props := [("id", "n1"), ("pk", "dom")] }
      "n1" "Person" [("pk", some "evil"), ("name", some "B")],
   C4_partition_immutability_amended.2 "pk"
      { nid := "n1", nlabel := "Person", props := [("id", "n1"), ("pk", "dom")] }
      "n1" [("name", "B")] (some "dom") (by decide)⟩

/- ===== Claim C5 ===== -/

/-- Claim C5 (code bug): for an entity whose stored partition key
"car-insurance" is auto-discovered (no usable caller key), the delete path
passes the discovered key to the repository and targets the
`(id, discovered key)` pair, but the update path calls the repository
without a partition-key argument: the composed update query pins the
has-filter to the entity id itself and carries the discovered key only as a
property step, so the mutation does not target the discovered pair. -/
theorem C5_update_mutation_targets_fallback_pair :
    serviceUpdateQuery "pk" "n1" { top := [], properties := [("name", "X")] } none
        (some "car-insurance") =
      "g.V(\x27n1\x27).has(\x27pk\x27, \x27n1\x27).property(\x27name\x27, \x27X\x27).property(\x27pk\x27, \x27car-insurance\x27)" ∧
    serviceDeleteQuery "pk" "n1" none (some "car-insurance") =
      "g.V(\x27n1\x27).has(\x27pk\x27, \x27car-insurance\x27).drop()" ∧
    subIn ".has(\x27pk\x27, \x27car-insurance\x27)"
      (serviceUpdateQuery "pk" "n1" { top := [], properties := [("name", "X")] } none
        (some "car-insurance")) = false :=
  ⟨by decide, by decide, by decide⟩

/- ===== Claim C8 ===== -/

/-- Counterexample for C8 as stated: an edge written through
`add_relationship` with the unclassified label "RELATES_TO" stores the
caller-supplied `riskCategory` value "Banana" unchanged, which is outside
the controlled vocabulary. -/
theorem C8_counterexample_caller_riskcategory_stored :
    getA (addRelationshipProps "pk" "RELATES_TO"
        [("riskCategory", "Banana"), ("doc", "f.csv")] none) "riskCategory" = some "Banana" ∧
    determineRiskCategory "RELATES_TO" = "" ∧
    ¬ ("Banana" = "Cause" ∨ "Banana" = "Effect" ∨ "Banana" = "Process" ∨
       ("Banana" : String) = "") :=
  ⟨by decide, by decide, by decide⟩

/-- Amended claim C8: whenever the edge label is classified by the static
tables (derived category nonempty), both `add_relationship` and
`add_relationships` overwrite any caller-supplied `riskCategory` with the
derived value, and that value is always one of Cause, Effect, Process; for
labels outside the tables the derivation is empty and the caller value, if
any, is stored unchanged. -/
theorem C8_risk_category_derivation_amended :
    (∀ (pkKey relType : String) (props : List (String × String))
       (lookup : Option (String × String)), pkKey ≠ "riskCategory" →
       determineRiskCategory relType ≠ "" →
       getA (addRelationshipProps pkKey relType props lookup) "riskCategory" =
         some (determineRiskCategory relType)) ∧
    (∀ (relLabel : String) (props : List (String × String)) (edgeId : Option String),
       determineRiskCategory relLabel ≠ "" →
       getA (addRelationshipsItemProps relLabel props edgeId) "riskCategory" =
         some (determineRiskCategory relLabel)) ∧
    (∀ label, determineRiskCategory label = "" ∨ determineRiskCategory label = "Cause" ∨
       determineRiskCategory label = "Effect" ∨ determineRiskCategory label = "Process") := by
  refine ⟨?_, ?_, ?_⟩
  · intro pkKey relType props lookup hpk hrc
    simp only [addRelationshipProps]
    rw [if_pos hrc]
    have hbase := aux_getA_setA_self props "riskCategory" (determineRiskCategory relType)
    split
    · cases lookup with
      | none => exact hbase
      | some dp =>
        obtain ⟨doc, pk⟩ := dp
        dsimp only
        by_cases hdoc : doc ≠ ""
        · rw [if_pos hdoc]
          by_cases hpkv : pk ≠ ""
          · rw [if_pos hpkv]
            rw [aux_getA_setA_ne _ _ _ _ (by decide)]
            rw [aux_getA_setA_ne _ _ _ _ hpk]
            rw [aux_getA_setA_ne _ _ _ _ (by decide)]
            rw [aux_getA_setA_ne _ _ _ _ (by decide)]
            exact hbase
          · rw [if_neg hpkv]
            rw [aux_getA_setA_ne _ _ _ _ (by decide)]
            rw [aux_getA_setA_ne _ _ _ _ (by decide)]
            exact hbase
        · rw [if_neg hdoc]
          by_cases hpkv : pk ≠ ""
          · rw [if_pos hpkv]
            rw [aux_getA_setA_ne _ _ _ _ (by decide)]
            rw [aux_getA_setA_ne _ _ _ _ hpk]
            exact hbase
          · rw [if_neg hpkv]
            exact hbase
    · exact hbase
  · intro relLabel props edgeId hrc
    simp only [addRelationshipsItemProps]
    rw [if_pos hrc]
    have hbase := aux_getA_setA_self props "riskCategory" (determineRiskCategory relLabel)
    cases edgeId with
    | none => exact hbase
    | some eid =>
      dsimp only
      by_cases he : eid = ""
      · rw [if_pos he]
        exact hbase
      · rw [if_neg he]
        rw [aux_getA_setA_ne _ _ _ _ (by decide)]
        exact hbase
  · intro label
    simp only [determineRiskCategory]
    split
    · exact Or.inr (Or.inl rfl)
    · split
      · exact Or.inr (Or.inr (Or.inl rfl))
      · split
        · exact Or.inr (Or.inr (Or.inr rfl))
        · exact Or.inl rfl

/-- Witness for the amended C8 at concrete labels and property maps. -/
theorem C8_risk_category_derivation_amended_witness :
    getA (addRelationshipProps "pk" "NEXT" [("riskCategory", "Banana")]
        (some ("f.csv", "dom"))) "riskCategory" = some (determineRiskCategory "NEXT") ∧
    getA (addRelationshipsItemProps "resulted_in" [("riskCategory", "Banana")] (some "e1"))
        "riskCategory" = some (determineRiskCategory "resulted_in") :=
  ⟨C8_risk_category_derivation_amended.1 "pk" "NEXT" [("riskCategory", "Banana")]
      (some ("f.csv", "dom")) (by decide) (by decide),
   C8_risk_category_derivation_amended.2.1 "resulted_in" [("riskCategory", "Banana")]
      (some "e1") (by decide)⟩

/- ===== Claim C10: helper invariants ===== -/

/-- Annotating cause or effect properties never changes an entity type. -/
theorem aux_setEntityProp_time (m : List (String × CsvEntity)) (eid k v : String)
    (h : ∀ e ∈ m, e.2.etype ≠ "Time") :
    ∀ e ∈ setEntityPropIfAbsent m eid k v, e.2.etype ≠ "Time" := by
  intro e he
  unfold setEntityPropIfAbsent at he
  obtain ⟨e0, he0, hmap⟩ := List.mem_map.mp he
  by_cases hc : e0.1 = eid ∧ ¬ hasA e0.2.props k
  · rw [if_pos hc] at hmap
    rw [← hmap]
    exact h e0 he0
  · rw [if_neg hc] at hmap
    rw [← hmap]
    exact h e0 he0

/-- The column loop skips values whose detected type is Time before any node
is created, so it preserves the absence of Time-typed entities. -/
theorem aux_doCols_time (pkKey filename domain caseCol : String) (banlist : List String)
    (row : List (String × String)) (cs : List String) :
    ∀ (st : CsvState) (cur : Option (String × String)) (ctx : List CtxNode),
      (∀ e ∈ st.entities, e.2.etype ≠ "Time") →
      ∀ e ∈ (doCols pkKey filename domain caseCol banlist row cs st cur ctx).1.entities,
        e.2.etype ≠ "Time" := by
  induction cs with
  | nil =>
    intro st cur ctx h
    rw [doCols]
    exact h
  | cons col rest ih =>
    intro st cur ctx h
    rw [doCols]
    dsimp only
    split
    · exact ih _ _ _ h
    split
    · exact ih _ _ _ h
    split
    · exact ih _ _ _ h
    split
    · exact ih _ _ _ h
    rename_i hnt
    split
    · exact ih _ _ _ h
    refine ih _ _ _ ?_
    intro e he
    split at he <;>
    · dsimp only at he
      rcases List.mem_append.mp he with hold | hnew
      · exact h e hold
      · simp only [List.mem_singleton] at hnew
        rw [hnew]
        simpa using hnt

/-- The star-model edge builder only appends edges; the entity map is
untouched. -/
theorem aux_starEdges_entities (filename caseId timeVal : String) (ctxs : List CtxNode) :
    ∀ st : CsvState, (starEdges filename caseId timeVal ctxs st).entities = st.entities := by
  induction ctxs with
  | nil =>
    intro st
    rw [starEdges]
  | cons ctx rest ih =>
    intro st
    rw [starEdges]
    dsimp only
    split
    · rw [ih]
      split <;> rfl
    · rw [ih]
      split <;> rfl

/-- The sequence step only appends an edge and annotates existing entities;
it preserves the absence of Time-typed entities. -/
theorem aux_seqStep_time (filename caseVal caseId : String) (idx : Nat) (timeVal : String)
    (cur : Option (String × String)) (st : CsvState)
    (h : ∀ e ∈ st.entities, e.2.etype ≠ "Time") :
    ∀ e ∈ (seqStep filename caseVal caseId idx timeVal cur st).entities,
      e.2.etype ≠ "Time" := by
  rw [seqStep.eq_def]
  cases cur with
  | none => exact h
  | some c =>
    obtain ⟨curId, curLabel⟩ := c
    dsimp only
    cases hga : getA st.tracker caseId with
    | none => exact h
    | some prevId =>
      dsimp only
      split
      · exact h
      · dsimp only
        refine aux_setEntityProp_time _ _ _ _ ?_
        refine aux_setEntityProp_time _ _ _ _ ?_
        split <;> exact h

/-- A processed row adds at most Case-typed and detected-type entities, never
Time-typed ones. -/
theorem aux_processRow_time (pkKey filename domain caseCol : String) (timeCol : Option String)
    (cols : List String) (banlist : List String) (idx : Nat) (row : List (String × String))
    (st : CsvState) (h : ∀ e ∈ st.entities, e.2.etype ≠ "Time") :
    ∀ e ∈ (processRow pkKey filename domain caseCol timeCol cols banlist idx row st).entities,
      e.2.etype ≠ "Time" := by
  rw [processRow.eq_def]
  dsimp only
  refine aux_seqStep_time _ _ _ _ _ _ _ ?_
  intro e he
  rw [aux_starEdges_entities] at he
  refine aux_doCols_time _ _ _ _ _ _ _ _ _ _ ?_ e he
  intro e2 he2
  split at he2
  · exact h e2 he2
  · split at he2 <;>
    · dsimp only at he2
      rcases List.mem_append.mp he2 with hold | hnew
      · exact h e2 hold
      · simp only [List.mem_singleton] at hnew
        rw [hnew]
        exact (by decide : ("Case" : String) ≠ "Time")

/-- Row-fold version of the Time-free invariant. -/
theorem aux_processRows_time (pkKey filename domain caseCol : String) (timeCol : Option String)
    (cols : List String) (banlist : List String) (rows : List (List (String × String))) :
    ∀ (idx : Nat) (st : CsvState), (∀ e ∈ st.entities, e.2.etype ≠ "Time") →
      ∀ e ∈ (processRows pkKey filename domain caseCol timeCol cols banlist idx rows st).entities,
        e.2.etype ≠ "Time" := by
  induction rows with
  | nil =>
    intro idx st h
    rw [processRows]
    exact h
  | cons row rest ih =>
    intro idx st h
    rw [processRows]
    exact ih _ _ (aux_processRow_time _ _ _ _ _ _ _ _ _ _ h)

/-- Claim C10: CSV ingestion never creates a node for a column value whose
detected type is Time — the per-column loop skips such values before node
creation — so every entity the ingestion emits (document, case, or context
node) carries a type other than Time, and timestamps survive only as edge
properties. -/
theorem C10_no_time_nodes (pkKey filename domain : String) (cols : List String)
    (rows : List (List (String × String))) :
    ∀ e ∈ (processCsvGraph pkKey filename domain cols rows).entities, e.2.etype ≠ "Time" := by
  rw [processCsvGraph.eq_def]
  refine aux_processRows_time _ _ _ _ _ _ _ _ _ _ ?_
  intro e he
  simp only [List.mem_singleton] at he
  rw [he]
  exact (by decide : ("Document" : String) ≠ "Time")

/-- Witness for C10: the document entity of a concrete one-row ingestion. -/
theorem C10_no_time_nodes_witness :
    ("cases.csv", ({ eid := "cases.csv", elabel := "cases.csv", etype := "Document",
                     props := [("normType", "Document"), ("filename", "cases.csv"),
                               ("documentId", "cases.csv"), ("status", "processed"),
                               ("pk", "cases")] } : CsvEntity)) ∈
      (processCsvGraph "pk" "cases.csv" "cases" ["case_id", "activity"]
        [[("case_id", "K1"), ("activity", "Login")]]).entities ∧
    ("Document" : String) ≠ "Time" :=
  ⟨by decide,
   C10_no_time_nodes "pk" "cases.csv" "cases" ["case_id", "activity"]
      [[("case_id", "K1"), ("activity", "Login")]]
      ("cases.csv", { eid := "cases.csv", elabel := "cases.csv", etype := "Document",
                      props := [("normType", "Document"), ("filename", "cases.csv"),
                                ("documentId", "cases.csv"), ("status", "processed"),
                                ("pk", "cases")] })
      (by decide)⟩

/- ===== Claim C3 ===== -/

/-- Counterexample for C3 as stated: a concrete two-row ingestion whose
second activity is "Account Closed" emits the transition edge with label
"RESULTS_IN" — the shortened form the code uses — not "RESULTED_IN" as the
claim has it. -/
theorem C3_counterexample_resultsin_label :
    ((processCsvGraph "pk" "cases.csv" "cases" ["case_id", "activity"]
        [[("case_id", "K1"), ("activity", "Start")],
         [("case_id", "K1"), ("activity", "Account Closed")]]).rels.filter
      isTransitionEdge).map (fun r => (r.src, r.dst, r.rlabel)) =
      [("Activity_Start", "Activity_Account_Closed", "RESULTS_IN")] ∧
    ("RESULTS_IN" : String) ≠ "RESULTED_IN" :=
  ⟨by decide, by decide⟩

/-- Amended claim C3: a transition into "Payment Fraud Detected" is
classified CAUSES with riskCategory Cause, a transition into
"Account Closed" is classified RESULTS_IN (not RESULTED_IN) with
riskCategory Effect, the label-category mapping is fixed
(Cause to CAUSES, Effect to RESULTS_IN, Process to NEXT), and under the
freshness guards the sequence step appends exactly that one edge. -/
theorem C3_risk_override_amended :
    seqLabelFor "Payment Fraud Detected" = ("CAUSES", "Cause") ∧
    seqLabelFor "Account Closed" = ("RESULTS_IN", "Effect") ∧
    (∀ l, seqLabelFor l = ("CAUSES", "Cause") ∨ seqLabelFor l = ("RESULTS_IN", "Effect") ∨
      seqLabelFor l = ("NEXT", "Process")) ∧
    (∀ (fn cv caseId : String) (idx : Nat) (tv : String) (st : CsvState)
       (prevId curId curLabel : String),
       getA st.tracker caseId = some prevId → prevId ≠ curId →
       st.created.contains (prevId ++ "_" ++ curId ++ "_" ++ (seqLabelFor curLabel).1 ++ "_" ++
         toString idx) = false →
       (seqStep fn cv caseId idx tv (some (curId, curLabel)) st).rels =
         st.rels ++ [{ rid := some (prevId ++ "_" ++ curId ++ "_" ++
                         (seqLabelFor curLabel).1 ++ "_" ++ toString idx),
                       src := prevId, dst := curId,
                       rlabel := (seqLabelFor curLabel).1,
                       props := [("doc", fn), ("riskCategory", (seqLabelFor curLabel).2),
                                 ("case_ref", cv), ("timestamp", tv)] }]) := by
  refine ⟨by decide, by decide, ?_, ?_⟩
  · intro l
    simp only [seqLabelFor]
    split
    · exact Or.inl rfl
    · split
      · exact Or.inr (Or.inl rfl)
      · exact Or.inr (Or.inr rfl)
  · intro fn cv caseId idx tv st prevId curId curLabel htr hne hkey
    rw [seqStep.eq_def]
    dsimp only
    rw [htr]
    dsimp only
    rw [if_neg hne]
    simp only [hkey, Bool.false_eq_true, if_false]

/-- Witness for the amended C3 at a concrete tracker state. -/
theorem C3_risk_override_amended_witness :
    getA ({ entities := [], rels := [], created := [],
            tracker := [("Case_K1", "Activity_Start")],
            trackerLabels := [("Case_K1", "Start")] } : CsvState).tracker "Case_K1" =
      some "Activity_Start" ∧
    ("Activity_Start" : String) ≠ "Activity_Account_Closed" ∧
    (seqStep "f.csv" "K1" "Case_K1" 1 ""
        (some ("Activity_Account_Closed", "Account Closed"))
        { entities := [], rels := [], created := [],
          tracker := [("Case_K1", "Activity_Start")],
          trackerLabels := [("Case_K1", "Start")] }).rels =
      [{ rid := some "Activity_Start_Activity_Account_Closed_RESULTS_IN_1",
         src := "Activity_Start", dst := "Activity_Account_Closed",
         rlabel := "RESULTS_IN",
         props := [("doc", "f.csv"), ("riskCategory", "Effect"),
                   ("case_ref", "K1"), ("timestamp", "")] }] :=
  ⟨by decide, by decide,
   C3_risk_override_amended.2.2.2 "f.csv" "K1" "Case_K1" 1 ""
      { entities := [], rels := [], created := [],
        tracker := [("Case_K1", "Activity_Start")],
        trackerLabels := [("Case_K1", "Start")] }
      "Activity_Start" "Activity_Account_Closed" "Account Closed"
      (by decide) (by decide) (by decide)⟩

/- ===== Claim C2: helper lemmas for the sequence development ===== -/

theorem aux_not_transition (rid : Option String) (src dst lbl : String)
    (props : List (String × String)) (h1 : lbl ≠ "NEXT") (h2 : lbl ≠ "CAUSES")
    (h3 : lbl ≠ "RESULTS_IN") :
    isTransitionEdge { rid := rid, src := src, dst := dst, rlabel := lbl, props := props } =
      false := by
  simp [isTransitionEdge, h1, h2, h3]

theorem aux_semanticLabel_ne (t : String) :
    semanticLabel t ≠ "NEXT" ∧ semanticLabel t ≠ "CAUSES" ∧ semanticLabel t ≠ "RESULTS_IN" := by
  simp only [semanticLabel]
  repeat' split
  all_goals exact ⟨by decide, by decide, by decide⟩

theorem aux_seqLabel_transition (l : String) (rid : Option String) (src dst : String)
    (props : List (String × String)) :
    isTransitionEdge { rid := rid, src := src, dst := dst, rlabel := (seqLabelFor l).1,
                       props := props } = true := by
  simp only [seqLabelFor]
  split
  · rfl
  · split
    · rfl
    · rfl

theorem aux_seqLabelFor_next (l : String)
    (h : ∀ w ∈ HIGH_RISK_KEYWORDS ++ TERMINAL_KEYWORDS, subIn w (pyLower l) = false) :
    seqLabelFor l = ("NEXT", "Process") := by
  have hh : HIGH_RISK_KEYWORDS.any (fun w => subIn w (pyLower l)) = false := by
    rw [List.any_eq_false]
    intro w hw
    simp [h w (List.mem_append.mpr (Or.inl hw))]
  have ht : TERMINAL_KEYWORDS.any (fun w => subIn w (pyLower l)) = false := by
    rw [List.any_eq_false]
    intro w hw
    simp [h w (List.mem_append.mpr (Or.inr hw))]
  simp only [seqLabelFor, aiIngestionAnalysis, hh, ht, Bool.false_eq_true, if_false]
  decide

theorem aux_seqStep_first (fn cv caseId : String) (idx : Nat) (tv : String)
    (curId curLabel : String) (st : CsvState)
    (htr : getA st.tracker caseId = none) :
    seqStep fn cv caseId idx tv (some (curId, curLabel)) st =
      { st with tracker := setA st.tracker caseId curId,
                trackerLabels := setA st.trackerLabels caseId curLabel } := by
  rw [seqStep.eq_def]
  dsimp only
  rw [htr]

theorem aux_seqStep_same (fn cv caseId : String) (idx : Nat) (tv : String)
    (curId curLabel : String) (st : CsvState)
    (htr : getA st.tracker caseId = some curId) :
    seqStep fn cv caseId idx tv (some (curId, curLabel)) st =
      { st with tracker := setA st.tracker caseId curId,
                trackerLabels := setA st.trackerLabels caseId curLabel } := by
  rw [seqStep.eq_def]
  dsimp only
  rw [htr]
  dsimp only
  rw [if_pos rfl]

theorem aux_seqStep_emit (fn cv caseId : String) (idx : Nat) (tv : String)
    (prevId curId curLabel : String) (st : CsvState)
    (htr : getA st.tracker caseId = some prevId) (hne : prevId ≠ curId)
    (hkey : st.created.contains (prevId ++ "_" ++ curId ++ "_" ++ (seqLabelFor curLabel).1 ++
      "_" ++ toString idx) = false) :
    seqStep fn cv caseId idx tv (some (curId, curLabel)) st =
      { entities := setEntityPropIfAbsent
          (setEntityPropIfAbsent st.entities curId "cause" ((getA st.trackerLabels caseId).getD ""))
          prevId "effect" curLabel,
        rels := st.rels ++ [{ rid := some (prevId ++ "_" ++ curId ++ "_" ++
                                (seqLabelFor curLabel).1 ++ "_" ++ toString idx),
                              src := prevId, dst := curId,
                              rlabel := (seqLabelFor curLabel).1,
                              props := [("doc", fn), ("riskCategory", (seqLabelFor curLabel).2),
                                        ("case_ref", cv), ("timestamp", tv)] }],
        created := st.created ++ [prevId ++ "_" ++ curId ++ "_" ++ (seqLabelFor curLabel).1 ++
          "_" ++ toString idx],
        tracker := setA st.tracker caseId curId,
        trackerLabels := setA st.trackerLabels caseId curLabel } := by
  rw [seqStep.eq_def]
  dsimp only
  rw [htr]
  dsimp only
  rw [if_neg hne]
  simp only [hkey, Bool.false_eq_true, if_false]

theorem aux_doCols_col2 (pkKey fn dom : String) (ban : List String) (w l : String)
    (st : CsvState)
    (hn : pyStrip l ≠ "") (hv : pyLower (pyStrip l) ≠ "nan")
    (hb : ban.contains (pyStrip l) = false) :
    (doCols pkKey fn dom "case_id" ban [("case_id", w), ("activity", l)]
        ["activity"] st none []).2.1 =
      some (cleanId "Activity" (pyStrip l), pyStrip l) ∧
    (doCols pkKey fn dom "case_id" ban [("case_id", w), ("activity", l)]
        ["activity"] st none []).2.2 =
      [{ cid := cleanId "Activity" (pyStrip l), ctype := "Activity", cval := pyStrip l }] ∧
    (doCols pkKey fn dom "case_id" ban [("case_id", w), ("activity", l)]
        ["activity"] st none []).1.rels.filter isTransitionEdge =
      st.rels.filter isTransitionEdge ∧
    (doCols pkKey fn dom "case_id" ban [("case_id", w), ("activity", l)]
        ["activity"] st none []).1.tracker = st.tracker ∧
    (doCols pkKey fn dom "case_id" ban [("case_id", w), ("activity", l)]
        ["activity"] st none []).1.trackerLabels = st.trackerLabels ∧
    (∀ k ∈ (doCols pkKey fn dom "case_id" ban [("case_id", w), ("activity", l)]
        ["activity"] st none []).1.created, k ∈ st.created ∨ k.data.getLast? = some 'S') := by
  have hr2 : rowGet [("case_id", w), ("activity", l)] "activity" = l := by
    simp [rowGet, getA]
  have hdt : detectType "activity" (pyStrip l) = "Activity" := rfl
  rw [doCols]
  simp only [hr2]
  rw [if_neg (by simp [hn, hv])]
  rw [if_neg (by decide : ¬("activity" : String) = "case_id")]
  rw [if_neg (by simp only [hb]; exact Bool.false_ne_true)]
  simp only [hdt]
  rw [if_neg (by decide : ¬("Activity" : String) = "Time")]
  split
  · rw [doCols]
    refine ⟨rfl, rfl, rfl, rfl, rfl, ?_⟩
    intro k hk
    exact Or.inl hk
  · split
    · rw [doCols]
      refine ⟨rfl, rfl, rfl, rfl, rfl, ?_⟩
      intro k hk
      exact Or.inl hk
    · rw [doCols]
      refine ⟨rfl, rfl, ?_, rfl, rfl, ?_⟩
      · dsimp only
        have hfe : isTransitionEdge
            { rid := none, src := fn, dst := cleanId "Activity" (pyStrip l),
              rlabel := "HAS_" ++ pyUpper "Activity", props := [("doc", fn)] } = false :=
          aux_not_transition _ _ _ _ _ (by decide) (by decide) (by decide)
        simp [List.filter_append, hfe]
      · intro k hk
        dsimp only at hk
        rcases List.mem_append.mp hk with hold | hnew
        · exact Or.inl hold
        · simp only [List.mem_singleton] at hnew
          rw [hnew]
          exact Or.inr (aux_str_last_append _ "_HAS" 'S' (by decide))

theorem aux_doCols_inst (pkKey fn dom : String) (ban : List String) (w l : String)
    (st : CsvState)
    (hn : pyStrip l ≠ "") (hv : pyLower (pyStrip l) ≠ "nan")
    (hb : ban.contains (pyStrip l) = false) :
    (doCols pkKey fn dom "case_id" ban [("case_id", w), ("activity", l)]
        ["case_id", "activity"] st none []).2.1 =
      some (cleanId "Activity" (pyStrip l), pyStrip l) ∧
    (doCols pkKey fn dom "case_id" ban [("case_id", w), ("activity", l)]
        ["case_id", "activity"] st none []).2.2 =
      [{ cid := cleanId "Activity" (pyStrip l), ctype := "Activity", cval := pyStrip l }] ∧
    (doCols pkKey fn dom "case_id" ban [("case_id", w), ("activity", l)]
        ["case_id", "activity"] st none []).1.rels.filter isTransitionEdge =
      st.rels.filter isTransitionEdge ∧
    (doCols pkKey fn dom "case_id" ban [("case_id", w), ("activity", l)]
        ["case_id", "activity"] st none []).1.tracker = st.tracker ∧
    (doCols pkKey fn dom "case_id" ban [("case_id", w), ("activity", l)]
        ["case_id", "activity"] st none []).1.trackerLabels = st.trackerLabels ∧
    (∀ k ∈ (doCols pkKey fn dom "case_id" ban [("case_id", w), ("activity", l)]
        ["case_id", "activity"] st none []).1.created,
      k ∈ st.created ∨ k.data.getLast? = some 'S') := by
  rw [doCols]
  split
  · exact aux_doCols_col2 pkKey fn dom ban w l st hn hv hb
  · rw [if_pos rfl]
    exact aux_doCols_col2 pkKey fn dom ban w l st hn hv hb

theorem aux_starEdges_inst (fn caseId cid cval : String) (st : CsvState) :
    (starEdges fn caseId "" [{ cid := cid, ctype := "Activity", cval := cval }] st).rels.filter
        isTransitionEdge = st.rels.filter isTransitionEdge ∧
    (starEdges fn caseId "" [{ cid := cid, ctype := "Activity", cval := cval }] st).tracker =
      st.tracker ∧
    (starEdges fn caseId "" [{ cid := cid, ctype := "Activity", cval := cval }] st).trackerLabels =
      st.trackerLabels ∧
    (∀ k ∈ (starEdges fn caseId "" [{ cid := cid, ctype := "Activity", cval := cval }] st).created,
      k ∈ st.created ∨ k.data.getLast? = some '_') := by
  rw [starEdges]
  dsimp only
  rw [if_pos rfl]
  split
  · rw [starEdges]
    refine ⟨rfl, rfl, rfl, ?_⟩
    intro k hk
    exact Or.inl hk
  · rw [starEdges]
    dsimp only
    have hfe : ∀ rid : Option String, isTransitionEdge
        { rid := rid, src := caseId, dst := cid,
          rlabel := "PERFORMS", props := [("timestamp", ""), ("doc", fn)] } = false :=
      fun rid => aux_not_transition _ _ _ _ _ (by decide) (by decide) (by decide)
    refine ⟨by simp [List.filter_append, hfe], rfl, rfl, ?_⟩
    intro k hk
    rcases List.mem_append.mp hk with hold | hnew
    · exact Or.inl hold
    · simp only [List.mem_singleton] at hnew
      rw [hnew]
      refine Or.inr ?_
      rw [aux_str_last_append_empty]
      exact aux_str_last_append _ "_PERFORMS_" '_' (by decide)


theorem aux_processRow_decomp (pkKey fn dom : String) (ban : List String)
    (row : List (String × String)) (idx : Nat) (st : CsvState) :
    processRow pkKey fn dom "case_id" none ["case_id", "activity"] ban idx row st =
      rowPipe pkKey fn dom ban row idx (caseSeed pkKey fn dom row st) := rfl

theorem aux_caseSeed_facts (pkKey fn dom : String) (row : List (String × String))
    (st : CsvState) :
    (caseSeed pkKey fn dom row st).rels.filter isTransitionEdge =
      st.rels.filter isTransitionEdge ∧
    (caseSeed pkKey fn dom row st).tracker = st.tracker ∧
    (caseSeed pkKey fn dom row st).trackerLabels = st.trackerLabels ∧
    (∀ k ∈ (caseSeed pkKey fn dom row st).created,
      k ∈ st.created ∨ k.data.getLast? = some 'S') := by
  simp only [caseSeed]
  split
  · exact ⟨rfl, rfl, rfl, fun k hk => Or.inl hk⟩
  · split
    · exact ⟨rfl, rfl, rfl, fun k hk => Or.inl hk⟩
    · have hfe : isTransitionEdge
          { rid := none, src := fn, dst := cleanId "Case" (pyStrip (rowGet row "case_id")),
            rlabel := "CONTAINS", props := [("doc", fn)] } = false :=
        aux_not_transition _ _ _ _ _ (by decide) (by decide) (by decide)
      refine ⟨by simp [List.filter_append, hfe], rfl, rfl, ?_⟩
      intro k hk
      rcases List.mem_append.mp hk with hold | hnew
      · exact Or.inl hold
      · simp only [List.mem_singleton] at hnew
        rw [hnew]
        exact Or.inr (aux_str_last_append _ "_CONTAINS" 'S' (by decide))

theorem aux_rowPipe_first (pkKey fn dom : String) (ban : List String) (w l : String)
    (idx : Nat) (st1 : CsvState)
    (hn : pyStrip l ≠ "") (hv : pyLower (pyStrip l) ≠ "nan")
    (hb : ban.contains (pyStrip l) = false)
    (htr1 : getA st1.tracker (cleanId "Case" (pyStrip w)) = none) :
    (rowPipe pkKey fn dom ban [("case_id", w), ("activity", l)] idx st1).rels.filter
        isTransitionEdge = st1.rels.filter isTransitionEdge ∧
    (rowPipe pkKey fn dom ban [("case_id", w), ("activity", l)] idx st1).tracker =
      setA st1.tracker (cleanId "Case" (pyStrip w)) (cleanId "Activity" (pyStrip l)) ∧
    (rowPipe pkKey fn dom ban [("case_id", w), ("activity", l)] idx st1).trackerLabels =
      setA st1.trackerLabels (cleanId "Case" (pyStrip w)) (pyStrip l) ∧
    (∀ k ∈ (rowPipe pkKey fn dom ban [("case_id", w), ("activity", l)] idx st1).created,
      k ∈ st1.created ∨ k.data.getLast? = some 'S' ∨ k.data.getLast? = some '_') := by
  have hw : rowGet [("case_id", w), ("activity", l)] "case_id" = w := by
    simp [rowGet, getA]
  simp only [rowPipe, hw]
  obtain ⟨hc, hctx, hrf, htk, htl, hcr⟩ := aux_doCols_inst pkKey fn dom ban w l st1 hn hv hb
  rw [hc, hctx]
  obtain ⟨srf, stk, stl, scr⟩ := aux_starEdges_inst fn (cleanId "Case" (pyStrip w))
    (cleanId "Activity" (pyStrip l)) (pyStrip l)
    (doCols pkKey fn dom "case_id" ban [("case_id", w), ("activity", l)]
      ["case_id", "activity"] st1 none []).1
  rw [aux_seqStep_first fn (pyStrip w) (cleanId "Case" (pyStrip w)) idx ""
    (cleanId "Activity" (pyStrip l)) (pyStrip l) _ (by rw [stk, htk]; exact htr1)]
  refine ⟨?_, ?_, ?_, ?_⟩
  · dsimp only
    rw [srf, hrf]
  · dsimp only
    rw [stk, htk]
  · dsimp only
    rw [stl, htl]
  · intro k hk
    dsimp only at hk
    rcases scr k hk with h1 | h2
    · rcases hcr k h1 with h3 | h4
      · exact Or.inl h3
      · exact Or.inr (Or.inl h4)
    · exact Or.inr (Or.inr h2)

theorem aux_rowPipe_emit (pkKey fn dom : String) (ban : List String) (w l : String)
    (idx : Nat) (st1 : CsvState) (prevId : String) (cs : List Char) (cidx : Char)
    (hn : pyStrip l ≠ "") (hv : pyLower (pyStrip l) ≠ "nan")
    (hb : ban.contains (pyStrip l) = false)
    (htr1 : getA st1.tracker (cleanId "Case" (pyStrip w)) = some prevId)
    (hne : prevId ≠ cleanId "Activity" (pyStrip l))
    (hinv : ∀ k ∈ st1.created, ∃ c, k.data.getLast? = some c ∧ c ∈ cs)
    (hS : 'S' ∈ cs) (hU : '_' ∈ cs)
    (hidx : (toString idx).data.getLast? = some cidx) (hcx : cidx ∉ cs) :
    (rowPipe pkKey fn dom ban [("case_id", w), ("activity", l)] idx st1).rels.filter
        isTransitionEdge = st1.rels.filter isTransitionEdge ++
      [{ rid := some (prevId ++ "_" ++ cleanId "Activity" (pyStrip l) ++ "_" ++
           (seqLabelFor (pyStrip l)).1 ++ "_" ++ toString idx),
         src := prevId, dst := cleanId "Activity" (pyStrip l),
         rlabel := (seqLabelFor (pyStrip l)).1,
         props := [("doc", fn), ("riskCategory", (seqLabelFor (pyStrip l)).2),
           ("case_ref", pyStrip w), ("timestamp", "")] }] ∧
    (rowPipe pkKey fn dom ban [("case_id", w), ("activity", l)] idx st1).tracker =
      setA st1.tracker (cleanId "Case" (pyStrip w)) (cleanId "Activity" (pyStrip l)) ∧
    (rowPipe pkKey fn dom ban [("case_id", w), ("activity", l)] idx st1).trackerLabels =
      setA st1.trackerLabels (cleanId "Case" (pyStrip w)) (pyStrip l) ∧
    (∀ k ∈ (rowPipe pkKey fn dom ban [("case_id", w), ("activity", l)] idx st1).created,
      ∃ c, k.data.getLast? = some c ∧ c ∈ cs ++ [cidx]) := by
  have hw : rowGet [("case_id", w), ("activity", l)] "case_id" = w := by
    simp [rowGet, getA]
  simp only [rowPipe, hw]
  obtain ⟨hc, hctx, hrf, htk, htl, hcr⟩ := aux_doCols_inst pkKey fn dom ban w l st1 hn hv hb
  rw [hc, hctx]
  obtain ⟨srf, stk, stl, scr⟩ := aux_starEdges_inst fn (cleanId "Case" (pyStrip w))
    (cleanId "Activity" (pyStrip l)) (pyStrip l)
    (doCols pkKey fn dom "case_id" ban [("case_id", w), ("activity", l)]
      ["case_id", "activity"] st1 none []).1
  have hlastkey : (prevId ++ "_" ++ cleanId "Activity" (pyStrip l) ++ "_" ++
      (seqLabelFor (pyStrip l)).1 ++ "_" ++ toString idx).data.getLast? = some cidx :=
    aux_str_last_append _ _ _ hidx
  have hkey : (starEdges fn (cleanId "Case" (pyStrip w)) ""
      [{ cid := cleanId "Activity" (pyStrip l), ctype := "Activity", cval := pyStrip l }]
      (doCols pkKey fn dom "case_id" ban [("case_id", w), ("activity", l)]
        ["case_id", "activity"] st1 none []).1).created.contains
      (prevId ++ "_" ++ cleanId "Activity" (pyStrip l) ++ "_" ++
        (seqLabelFor (pyStrip l)).1 ++ "_" ++ toString idx) = false := by
    refine aux_contains_false _ _ ?_
    intro k hk
    rcases scr k hk with h1 | h2
    · rcases hcr k h1 with h3 | h4
      · obtain ⟨c, hcl, hcs⟩ := hinv k h3
        exact aux_str_ne_of_last _ _ _ _ hcl hlastkey fun hce => hcx (hce ▸ hcs)
      · exact aux_str_ne_of_last _ _ _ _ h4 hlastkey fun hce => hcx (hce ▸ hS)
    · exact aux_str_ne_of_last _ _ _ _ h2 hlastkey fun hce => hcx (hce ▸ hU)
  rw [aux_seqStep_emit fn (pyStrip w) (cleanId "Case" (pyStrip w)) idx "" prevId
    (cleanId "Activity" (pyStrip l)) (pyStrip l) _ (by rw [stk, htk]; exact htr1) hne hkey]
  refine ⟨?_, ?_, ?_, ?_⟩
  · dsimp only
    rw [List.filter_append, srf, hrf]
    rw [show List.filter isTransitionEdge
        [{ rid := some (prevId ++ "_" ++ cleanId "Activity" (pyStrip l) ++ "_" ++
             (seqLabelFor (pyStrip l)).1 ++ "_" ++ toString idx),
           src := prevId, dst := cleanId "Activity" (pyStrip l),
           rlabel := (seqLabelFor (pyStrip l)).1,
           props := [("doc", fn), ("riskCategory", (seqLabelFor (pyStrip l)).2),
             ("case_ref", pyStrip w), ("timestamp", "")] }] =
        [{ rid := some (prevId ++ "_" ++ cleanId "Activity" (pyStrip l) ++ "_" ++
             (seqLabelFor (pyStrip l)).1 ++ "_" ++ toString idx),
           src := prevId, dst := cleanId "Activity" (pyStrip l),
           rlabel := (seqLabelFor (pyStrip l)).1,
           props := [("doc", fn), ("riskCategory", (seqLabelFor (pyStrip l)).2),
             ("case_ref", pyStrip w), ("timestamp", "")] }] from by
      simp [List.filter, aux_seqLabel_transition]]
  · dsimp only
    rw [stk, htk]
  · dsimp only
    rw [stl, htl]
  · intro k hk
    dsimp only at hk
    rcases List.mem_append.mp hk with hstar | hnew
    · rcases scr k hstar with h1 | h2
      · rcases hcr k h1 with h3 | h4
        · obtain ⟨c, hcl, hcs⟩ := hinv k h3
          exact ⟨c, hcl, List.mem_append.mpr (Or.inl hcs)⟩
        · exact ⟨'S', h4, List.mem_append.mpr (Or.inl hS)⟩
      · exact ⟨'_', h2, List.mem_append.mpr (Or.inl hU)⟩
    · simp only [List.mem_singleton] at hnew
      rw [hnew]
      exact ⟨cidx, hlastkey, List.mem_append.mpr (Or.inr (by simp))⟩


theorem aux_processRow_first (pkKey fn dom : String) (ban : List String) (w l : String)
    (idx : Nat) (st : CsvState) (cs : List Char)
    (hn : pyStrip l ≠ "") (hv : pyLower (pyStrip l) ≠ "nan")
    (hb : ban.contains (pyStrip l) = false)
    (htr : getA st.tracker (cleanId "Case" (pyStrip w)) = none)
    (hinv : ∀ k ∈ st.created, ∃ c, k.data.getLast? = some c ∧ c ∈ cs)
    (hS : 'S' ∈ cs) (hU : '_' ∈ cs) :
    (processRow pkKey fn dom "case_id" none ["case_id", "activity"] ban idx
        [("case_id", w), ("activity", l)] st).rels.filter isTransitionEdge =
      st.rels.filter isTransitionEdge ∧
    (processRow pkKey fn dom "case_id" none ["case_id", "activity"] ban idx
        [("case_id", w), ("activity", l)] st).tracker =
      setA st.tracker (cleanId "Case" (pyStrip w)) (cleanId "Activity" (pyStrip l)) ∧
    (processRow pkKey fn dom "case_id" none ["case_id", "activity"] ban idx
        [("case_id", w), ("activity", l)] st).trackerLabels =
      setA st.trackerLabels (cleanId "Case" (pyStrip w)) (pyStrip l) ∧
    (∀ k ∈ (processRow pkKey fn dom "case_id" none ["case_id", "activity"] ban idx
        [("case_id", w), ("activity", l)] st).created,
      ∃ c, k.data.getLast? = some c ∧ c ∈ cs) := by
  rw [aux_processRow_decomp]
  obtain ⟨cf, ct, ctl, ccr⟩ := aux_caseSeed_facts pkKey fn dom [("case_id", w), ("activity", l)] st
  obtain ⟨p1, p2, p3, p4⟩ := aux_rowPipe_first pkKey fn dom ban w l idx
    (caseSeed pkKey fn dom [("case_id", w), ("activity", l)] st) hn hv hb
    (by rw [ct]; exact htr)
  refine ⟨?_, ?_, ?_, ?_⟩
  · rw [p1, cf]
  · rw [p2, ct]
  · rw [p3, ctl]
  · intro k hk
    rcases p4 k hk with h1 | h2 | h3
    · rcases ccr k h1 with hc1 | hc2
      · exact hinv k hc1
      · exact ⟨'S', hc2, hS⟩
    · exact ⟨'S', h2, hS⟩
    · exact ⟨'_', h3, hU⟩

theorem aux_processRow_emit (pkKey fn dom : String) (ban : List String) (w l : String)
    (idx : Nat) (st : CsvState) (prevId : String) (cs : List Char) (cidx : Char)
    (hn : pyStrip l ≠ "") (hv : pyLower (pyStrip l) ≠ "nan")
    (hb : ban.contains (pyStrip l) = false)
    (htr : getA st.tracker (cleanId "Case" (pyStrip w)) = some prevId)
    (hne : prevId ≠ cleanId "Activity" (pyStrip l))
    (hinv : ∀ k ∈ st.created, ∃ c, k.data.getLast? = some c ∧ c ∈ cs)
    (hS : 'S' ∈ cs) (hU : '_' ∈ cs)
    (hidx : (toString idx).data.getLast? = some cidx) (hcx : cidx ∉ cs) :
    (processRow pkKey fn dom "case_id" none ["case_id", "activity"] ban idx
        [("case_id", w), ("activity", l)] st).rels.filter isTransitionEdge =
      st.rels.filter isTransitionEdge ++
        [{ rid := some (prevId ++ "_" ++ cleanId "Activity" (pyStrip l) ++ "_" ++
             (seqLabelFor (pyStrip l)).1 ++ "_" ++ toString idx),
           src := prevId, dst := cleanId "Activity" (pyStrip l),
           rlabel := (seqLabelFor (pyStrip l)).1,
           props := [("doc", fn), ("riskCategory", (seqLabelFor (pyStrip l)).2),
             ("case_ref", pyStrip w), ("timestamp", "")] }] ∧
    (processRow pkKey fn dom "case_id" none ["case_id", "activity"] ban idx
        [("case_id", w), ("activity", l)] st).tracker =
      setA st.tracker (cleanId "Case" (pyStrip w)) (cleanId "Activity" (pyStrip l)) ∧
    (processRow pkKey fn dom "case_id" none ["case_id", "activity"] ban idx
        [("case_id", w), ("activity", l)] st).trackerLabels =
      setA st.trackerLabels (cleanId "Case" (pyStrip w)) (pyStrip l) ∧
    (∀ k ∈ (processRow pkKey fn dom "case_id" none ["case_id", "activity"] ban idx
        [("case_id", w), ("activity", l)] st).created,
      ∃ c, k.data.getLast? = some c ∧ c ∈ cs ++ [cidx]) := by
  rw [aux_processRow_decomp]
  obtain ⟨cf, ct, ctl, ccr⟩ := aux_caseSeed_facts pkKey fn dom [("case_id", w), ("activity", l)] st
  have hinv1 : ∀ k ∈ (caseSeed pkKey fn dom [("case_id", w), ("activity", l)] st).created,
      ∃ c, k.data.getLast? = some c ∧ c ∈ cs := by
    intro k hk
    rcases ccr k hk with hc1 | hc2
    · exact hinv k hc1
    · exact ⟨'S', hc2, hS⟩
  obtain ⟨p1, p2, p3, p4⟩ := aux_rowPipe_emit pkKey fn dom ban w l idx
    (caseSeed pkKey fn dom [("case_id", w), ("activity", l)] st) prevId cs cidx hn hv hb
    (by rw [ct]; exact htr) hne hinv1 hS hU hidx hcx
  exact ⟨by rw [p1, cf], by rw [p2, ct], by rw [p3, ctl], p4⟩

/-- Claim C2: for a Case whose chronologically sorted activity timeline is
[A, B, C] with pairwise-distinct activity ids and no risk or terminal
keywords in any activity label, CSV ingestion emits exactly two transition
edges, A to B and B to C, each labeled NEXT with riskCategory Process
(stated via the transition-edge filter over the emitted relationship list);
and in general a transition edge is emitted on a subsequent activity only
when its id differs from the tracked previous activity id of the Case — a
repeat of the same activity leaves the relationship list unchanged. -/
theorem C2_sequence_correctness (cv la lb lc : String)
    (hab : cleanId "Activity" (pyStrip la) ≠ cleanId "Activity" (pyStrip lb))
    (hbc : cleanId "Activity" (pyStrip lb) ≠ cleanId "Activity" (pyStrip lc))
    (hka : ∀ w ∈ HIGH_RISK_KEYWORDS ++ TERMINAL_KEYWORDS, subIn w (pyLower (pyStrip la)) = false)
    (hkb : ∀ w ∈ HIGH_RISK_KEYWORDS ++ TERMINAL_KEYWORDS, subIn w (pyLower (pyStrip lb)) = false)
    (hkc : ∀ w ∈ HIGH_RISK_KEYWORDS ++ TERMINAL_KEYWORDS, subIn w (pyLower (pyStrip lc)) = false)
    (hna : pyStrip la ≠ "") (hnb : pyStrip lb ≠ "") (hnc : pyStrip lc ≠ "")
    (hva : pyLower (pyStrip la) ≠ "nan") (hvb : pyLower (pyStrip lb) ≠ "nan")
    (hvc : pyLower (pyStrip lc) ≠ "nan")
    (hca : pyStrip la ≠ pyStrip cv) (hcb : pyStrip lb ≠ pyStrip cv)
    (hcc : pyStrip lc ≠ pyStrip cv) :
    ((processCsvGraph "pk" "cases.csv" "cases" ["case_id", "activity"]
        [[("case_id", cv), ("activity", la)],
         [("case_id", cv), ("activity", lb)],
         [("case_id", cv), ("activity", lc)]]).rels.filter isTransitionEdge).map
      (fun r => (r.src, r.dst, r.rlabel, getA r.props "riskCategory")) =
      [(cleanId "Activity" (pyStrip la), cleanId "Activity" (pyStrip lb), "NEXT", some "Process"),
       (cleanId "Activity" (pyStrip lb), cleanId "Activity" (pyStrip lc), "NEXT",
         some "Process")] ∧
    (∀ (fn cv2 caseId : String) (idx : Nat) (tv : String) (st : CsvState)
       (curId curLabel : String), getA st.tracker caseId = some curId →
       (seqStep fn cv2 caseId idx tv (some (curId, curLabel)) st).rels = st.rels) := by
  constructor
  · have hbanb : ∀ l0 : String, pyStrip l0 ≠ pyStrip cv →
        ([pyStrip cv, pyStrip cv, pyStrip cv].contains (pyStrip l0)) = false := by
      intro l0 h0
      refine aux_contains_false _ _ ?_
      intro x hx
      simp only [List.mem_cons, List.not_mem_nil, or_false] at hx
      rcases hx with hx | hx | hx <;>
      · rw [hx]
        exact fun he => h0 he.symm
    rw [processCsvGraph.eq_def]
    dsimp only
    rw [show pickCaseCol ["case_id", "activity"] = "case_id" from rfl]
    rw [show pickTimeCol ["case_id", "activity"] = none from rfl]
    rw [show List.map (fun r => pyStrip (rowGet r "case_id"))
        [[("case_id", cv), ("activity", la)],
         [("case_id", cv), ("activity", lb)],
         [("case_id", cv), ("activity", lc)]] = [pyStrip cv, pyStrip cv, pyStrip cv] from by
      simp [rowGet, getA]]
    simp only [processRows]
    have h1 := aux_processRow_first "pk" "cases.csv" "cases" [pyStrip cv, pyStrip cv, pyStrip cv]
      cv la 0
      { entities := [("cases.csv",
          { eid := "cases.csv", elabel := "cases.csv", etype := "Document",
            props := [("normType", "Document"), ("filename", "cases.csv"),
              ("documentId", "cases.csv"), ("status", "processed"), ("pk", "cases")] })],
        rels := [], created := [], tracker := [], trackerLabels := [] }
      ['S', '_'] hna hva (hbanb la hca) rfl (by simp) (by decide) (by decide)
    have h2 := aux_processRow_emit "pk" "cases.csv" "cases" [pyStrip cv, pyStrip cv, pyStrip cv]
      cv lb 1
      (processRow "pk" "cases.csv" "cases" "case_id" none ["case_id", "activity"]
        [pyStrip cv, pyStrip cv, pyStrip cv] 0 [("case_id", cv), ("activity", la)]
        { entities := [("cases.csv",
            { eid := "cases.csv", elabel := "cases.csv", etype := "Document",
              props := [("normType", "Document"), ("filename", "cases.csv"),
                ("documentId", "cases.csv"), ("status", "processed"), ("pk", "cases")] })],
          rels := [], created := [], tracker := [], trackerLabels := [] })
      (cleanId "Activity" (pyStrip la)) ['S', '_'] '1'
      hnb hvb (hbanb lb hcb)
      (by rw [h1.2.1]; simp [setA, getA])
      hab h1.2.2.2 (by decide) (by decide) (by decide) (by decide)
    have h3 := aux_processRow_emit "pk" "cases.csv" "cases" [pyStrip cv, pyStrip cv, pyStrip cv]
      cv lc 2
      (processRow "pk" "cases.csv" "cases" "case_id" none ["case_id", "activity"]
        [pyStrip cv, pyStrip cv, pyStrip cv] 1 [("case_id", cv), ("activity", lb)]
        (processRow "pk" "cases.csv" "cases" "case_id" none ["case_id", "activity"]
          [pyStrip cv, pyStrip cv, pyStrip cv] 0 [("case_id", cv), ("activity", la)]
          { entities := [("cases.csv",
              { eid := "cases.csv", elabel := "cases.csv", etype := "Document",
                props := [("normType", "Document"), ("filename", "cases.csv"),
                  ("documentId", "cases.csv"), ("status", "processed"), ("pk", "cases")] })],
            rels := [], created := [], tracker := [], trackerLabels := [] }))
      (cleanId "Activity" (pyStrip lb)) (['S', '_'] ++ ['1']) '2'
      hnc hvc (hbanb lc hcc)
      (by rw [h2.2.1, h1.2.1]; simp [setA, getA])
      hbc h2.2.2.2 (by decide) (by decide) (by decide) (by decide)
    rw [h3.1, h2.1, h1.1]
    rw [aux_seqLabelFor_next (pyStrip lb) hkb, aux_seqLabelFor_next (pyStrip lc) hkc]
    simp [getA]
  · intro fn cv2 caseId idx tv st curId curLabel htr
    rw [aux_seqStep_same fn cv2 caseId idx tv curId curLabel st htr]

/-- Witness for C2 at a concrete three-row timeline. -/
theorem C2_sequence_correctness_witness :
    cleanId "Activity" (pyStrip "Login") ≠ cleanId "Activity" (pyStrip "Review") ∧
    ((processCsvGraph "pk" "cases.csv" "cases" ["case_id", "activity"]
        [[("case_id", "K1"), ("activity", "Login")],
         [("case_id", "K1"), ("activity", "Review")],
         [("case_id", "K1"), ("activity", "Approve")]]).rels.filter isTransitionEdge).map
      (fun r => (r.src, r.dst, r.rlabel, getA r.props "riskCategory")) =
      [("Activity_Login", "Activity_Review", "NEXT", some "Process"),
       ("Activity_Review", "Activity_Approve", "NEXT", some "Process")] :=
  ⟨by decide,
   (C2_sequence_correctness "K1" "Login" "Review" "Approve"
      (by decide) (by decide) (by decide) (by decide) (by decide)
      (by decide) (by decide) (by decide) (by decide) (by decide) (by decide)
      (by decide) (by decide) (by decide)).1⟩
